import Mathlib

/-!
Verification of the subway-seat-selection backend (`backend/main.py`,
`backend/models.py`, `backend/schemas.py`).

The relational tables of `models.py` are embedded as Lean structures held in
lists inside a `Db` record, and the FastAPI endpoint handlers of `main.py` are
embedded as pure functions `Db → ... → Except ApiError ...`.  Auto-increment
primary keys are modelled by a `nextId` counter and the database clock by a
`now` field.  SQLAlchemy ORM cascades declared on the models are applied
explicitly where an endpoint deletes a parent row.
-/

namespace SubwaySeat

/-- Grid tile, after `schemas.TileSchema`. -/
structure Tile where
  type : String
  occupied : Bool
  person : Option String
  isDoor : Option Bool
  isStanchion : Option Bool
deriving DecidableEq, Repr

/-- Row of `train_configurations`, after `models.TrainConfiguration`. -/
structure TrainConfiguration where
  id : Nat
  name : Option String
  title : Option String
  height : Nat
  width : Nat
  tiles : List (List Tile)
deriving DecidableEq, Repr

/-- Row of `user_responses`, after `models.UserResponse`.  `row`/`col` are
Python ints, hence `Int`. -/
structure UserResponse where
  id : Nat
  train_configuration_id : Nat
  row : Int
  col : Int
  selection_type : String
  user_session_id : Option String
  user_id : Option String
  gender : Option String
  created_at : Nat
deriving DecidableEq, Repr

/-- Row of `users`, after `models.User`. -/
structure User where
  id : Nat
  email : String
deriving DecidableEq, Repr

/-- Row of `scenario_groups`, after `models.ScenarioGroup`. -/
structure ScenarioGroup where
  id : Nat
  created_by_user_id : Nat
deriving DecidableEq, Repr

/-- Row of `scenario_group_editors`, after `models.ScenarioGroupEditor`. -/
structure ScenarioGroupEditor where
  id : Nat
  scenario_group_id : Nat
  user_id : Nat
deriving DecidableEq, Repr

/-- Row of `scenario_group_items`, after `models.ScenarioGroupItem`. -/
structure ScenarioGroupItem where
  id : Nat
  scenario_group_id : Nat
  train_configuration_id : Nat
  order : Nat
deriving DecidableEq, Repr

/-- Row of `studies`, after `models.Study`. -/
structure Study where
  id : Nat
  title : String
  description : Option String
  email : String
  scenario_group_id : Nat
  created_by_user_id : Nat
deriving DecidableEq, Repr

/-- Row of `questions`, after `models.Question`. -/
structure Question where
  id : Nat
  question_text : String
  allows_free_text : Bool
  allows_tags : Bool
  allows_multiple_tags : Bool
deriving DecidableEq, Repr

/-- Row of `post_response_questions`, after `models.PostResponseQuestion`. -/
structure PostResponseQuestion where
  id : Nat
  question_id : Nat
  train_configuration_id : Nat
  is_required : Bool
  free_text_required : Bool
  order : Nat
  is_default : Bool
deriving DecidableEq, Repr

/-- Row of `pre_study_questions`, after `models.PreStudyQuestion`. -/
structure PreStudyQuestion where
  id : Nat
  question_id : Nat
  study_id : Nat
  order : Nat
deriving DecidableEq, Repr

/-- Row of `post_study_questions`, after `models.PostStudyQuestion`. -/
structure PostStudyQuestion where
  id : Nat
  question_id : Nat
  study_id : Nat
  order : Nat
deriving DecidableEq, Repr

/-- Row of `question_tags`, after `models.QuestionTag`. -/
structure QuestionTag where
  id : Nat
  tag_text : String
  is_default : Bool
  created_by_user_id : Option Nat
deriving DecidableEq, Repr

/-- Row of `question_tag_assignments`, after `models.QuestionTagAssignment`. -/
structure QuestionTagAssignment where
  id : Nat
  question_id : Nat
  tag_id : Nat
  order : Nat
deriving DecidableEq, Repr

/-- Row of `question_responses`, after `models.QuestionResponse`. -/
structure QuestionResponse where
  id : Nat
  user_response_id : Nat
  post_response_question_id : Nat
  free_text_response : Option String
deriving DecidableEq, Repr

/-- Row of `question_response_tags`, after `models.QuestionResponseTag`. -/
structure QuestionResponseTag where
  id : Nat
  question_response_id : Nat
  tag_id : Nat
deriving DecidableEq, Repr

/-- The relational store: one list per table, plus the auto-increment counter
`nextId` and the database clock `now`. -/
structure Db where
  train_configurations : List TrainConfiguration
  user_responses : List UserResponse
  users : List User
  scenario_groups : List ScenarioGroup
  scenario_group_editors : List ScenarioGroupEditor
  scenario_group_items : List ScenarioGroupItem
  studies : List Study
  questions : List Question
  post_response_questions : List PostResponseQuestion
  pre_study_questions : List PreStudyQuestion
  post_study_questions : List PostStudyQuestion
  question_tags : List QuestionTag
  question_tag_assignments : List QuestionTagAssignment
  question_responses : List QuestionResponse
  question_response_tags : List QuestionResponseTag
  nextId : Nat
  now : Nat
deriving DecidableEq, Repr

/-- The error taxonomy the endpoints raise through `HTTPException`:
404 → `notFound`, 400/422 → `validation`, 403 → `authorization`,
401 → `authentication`, 409 → `conflict`. -/
inductive ApiError where
  | notFound
  | validation
  | authorization
  | authentication
  | conflict
deriving DecidableEq, Repr

/-- Python truthiness of an optional string: `None` and `""` are falsy.
Embeds conditions of the form `if response.user_session_id:`. -/
def pyTruthy : Option String → Bool
  | none => false
  | some s => !s.isEmpty

/-- `select(TrainConfiguration).where(TrainConfiguration.id == cid)` +
`scalar_one_or_none`. -/
def findTrainConfiguration (db : Db) (cid : Nat) : Option TrainConfiguration :=
  db.train_configurations.find? (fun c => c.id == cid)

/-- `select(ScenarioGroup).where(ScenarioGroup.id == gid)` +
`scalar_one_or_none`. -/
def findScenarioGroup (db : Db) (gid : Nat) : Option ScenarioGroup :=
  db.scenario_groups.find? (fun g => g.id == gid)

/-- Editor-link lookup used by the `is_editor` checks. -/
def isGroupEditor (db : Db) (gid uid : Nat) : Bool :=
  db.scenario_group_editors.any (fun e => e.scenario_group_id == gid && e.user_id == uid)

/-- In-place update of the first row matching `p`, as SQLAlchemy mutation of
the object returned by `scalar_one_or_none` models it. -/
def updateFirst {α : Type} (p : α → Bool) (f : α → α) : List α → List α
  | [] => []
  | x :: xs => if p x then f x :: xs else x :: updateFirst p f xs

/-- Body of `POST /user-responses`, after `schemas.UserResponseCreate`. -/
structure UserResponseCreate where
  train_configuration_id : Nat
  row : Int
  col : Int
  selection_type : String
  user_session_id : Option String
  user_id : Option String
  gender : Option String
deriving DecidableEq, Repr

/-- The pydantic constraints on `UserResponseCreate`: `row`/`col` are
`ge=0` and `selection_type`/`gender` are `Literal` fields.  FastAPI rejects a
body violating them with a validation error before the handler runs. -/
def userResponseSchemaValid (r : UserResponseCreate) : Bool :=
  0 ≤ r.row && 0 ≤ r.col &&
  (r.selection_type == "seat" || r.selection_type == "floor") &&
  (match r.gender with
   | none => true
   | some g => g == "man" || g == "woman" || g == "neutral" || g == "prefer-not-to-say")

/-- Field assignments of the update branch of `create_user_response`:
only `row`, `col`, `selection_type` and `gender` are written. -/
def updResp (response : UserResponseCreate) (r : UserResponse) : UserResponse :=
  { r with row := response.row, col := response.col,
           selection_type := response.selection_type,
           gender := response.gender }

/-- Predicate of the existing-response lookup in `create_user_response`:
same scenario and same session id. -/
def userResponseMatches (response : UserResponseCreate) (r : UserResponse) : Bool :=
  r.train_configuration_id == response.train_configuration_id &&
  r.user_session_id == response.user_session_id

/-- Handler of `POST /user-responses` (`main.create_user_response`):
404 on unknown scenario, 400 on out-of-bounds position, then either update of
the existing `(scenario, session)` response or insert of a new row. -/
def create_user_response (db : Db) (response : UserResponseCreate) :
    Except ApiError (Db × UserResponse) :=
  match findTrainConfiguration db response.train_configuration_id with
  | none => .error .notFound
  | some config =>
    if response.row ≥ (config.height : Int) || response.col ≥ (config.width : Int) then
      .error .validation
    else
      let existing :=
        if pyTruthy response.user_session_id then
          db.user_responses.find? (userResponseMatches response)
        else none
      match existing with
      | some existing_response =>
        let responses :=
          updateFirst (userResponseMatches response) (updResp response) db.user_responses
        .ok ({ db with user_responses := responses }, updResp response existing_response)
      | none =>
        let db_response : UserResponse :=
          { id := db.nextId,
            train_configuration_id := response.train_configuration_id,
            row := response.row, col := response.col,
            selection_type := response.selection_type,
            user_session_id := response.user_session_id,
            user_id := response.user_id,
            gender := response.gender,
            created_at := db.now }
        .ok ({ db with user_responses := db.user_responses ++ [db_response],
                       nextId := db.nextId + 1 },
             db_response)

/-- Full `POST /user-responses` pipeline: pydantic schema validation, then the
handler. -/
def post_user_responses (db : Db) (r : UserResponseCreate) :
    Except ApiError (Db × UserResponse) :=
  if userResponseSchemaValid r then create_user_response db r else .error .validation

/-! ### Counting dictionaries

Python `dict` counters (`heatmap[key] = heatmap.get(key, 0) + 1` and
`tag_counts[tag_id] += 1`) are embedded as insertion-ordered association
lists. -/

/-- One `m[k] = m.get(k, 0) + 1` step on an insertion-ordered counter. -/
def bumpCount {κ : Type} [BEq κ] (k : κ) : List (κ × Nat) → List (κ × Nat)
  | [] => [(k, 1)]
  | (k0, c) :: rest =>
    if k0 == k then (k0, c + 1) :: rest else (k0, c) :: bumpCount k rest

/-- Dictionary lookup on a counter. -/
def lookupCount {κ : Type} [BEq κ] (m : List (κ × Nat)) (k : κ) : Option Nat :=
  (m.find? (fun kv => kv.1 == k)).map (fun kv => kv.2)

/-- Counter built from a list of keys, left to right. -/
def countMap {κ : Type} [BEq κ] (l : List κ) : List (κ × Nat) :=
  l.foldl (fun m k => bumpCount k m) []

/-- Heatmap key `f"{response.row},{response.col}"`. -/
def heatmapKey (row col : Int) : String := s!"{row},{col}"

/-- Payload of `GET /train-configurations/{id}/statistics`, after
`schemas.ResponseStatistics`. -/
structure ResponseStatistics where
  train_configuration_id : Nat
  total_responses : Nat
  seat_selections : Nat
  floor_selections : Nat
  selection_heatmap : List (String × Nat)
deriving DecidableEq, Repr

/-- Handler of `GET /train-configurations/{config_id}/statistics`
(`main.get_response_statistics`): 404 on unknown scenario, then counts and the
heatmap over the (optionally gender-filtered) responses. -/
def get_response_statistics (db : Db) (config_id : Nat) (gender : Option String) :
    Except ApiError ResponseStatistics :=
  match findTrainConfiguration db config_id with
  | none => .error .notFound
  | some _ =>
    let responses := db.user_responses.filter (fun r =>
      r.train_configuration_id == config_id &&
      (if pyTruthy gender then r.gender == gender else true))
    let total_responses := responses.length
    let seat_selections := responses.countP (fun r => r.selection_type == "seat")
    let floor_selections := responses.countP (fun r => r.selection_type == "floor")
    let heatmap := responses.foldl (fun m r => bumpCount (heatmapKey r.row r.col) m) []
    .ok { train_configuration_id := config_id, total_responses := total_responses,
          seat_selections := seat_selections, floor_selections := floor_selections,
          selection_heatmap := heatmap }

/-! ### ScenarioGroup endpoints -/

/-- Body of item create/update, after `schemas.ScenarioGroupItemCreate`. -/
structure ScenarioGroupItemCreate where
  train_configuration_id : Nat
  order : Nat
deriving DecidableEq, Repr

/-- `PUT /scenario-groups/{group_id}` (`main.update_scenario_group`):
404 if the group is missing, 403 unless the caller is creator or editor.
`ScenarioGroupUpdate` has no updatable fields, so success leaves the store
unchanged. -/
def update_scenario_group (db : Db) (group_id : Nat) (current_user : Nat) :
    Except ApiError Db :=
  match findScenarioGroup db group_id with
  | none => .error .notFound
  | some group =>
    if !(group.created_by_user_id == current_user || isGroupEditor db group_id current_user) then
      .error .authorization
    else .ok db

/-- Effect of `db.delete(group)` with the ORM cascades declared on
`models.ScenarioGroup`: items, editors and studies are removed with the group,
and each removed study cascades its pre/post-study questions. -/
def deleteScenarioGroupCascade (db : Db) (group_id : Nat) : Db :=
  let removedStudyIds :=
    (db.studies.filter (fun s => s.scenario_group_id == group_id)).map (fun s => s.id)
  { db with
    scenario_groups := db.scenario_groups.filter (fun g => g.id != group_id),
    scenario_group_items :=
      db.scenario_group_items.filter (fun i => i.scenario_group_id != group_id),
    scenario_group_editors :=
      db.scenario_group_editors.filter (fun e => e.scenario_group_id != group_id),
    studies := db.studies.filter (fun s => s.scenario_group_id != group_id),
    pre_study_questions :=
      db.pre_study_questions.filter (fun q => !(removedStudyIds.contains q.study_id)),
    post_study_questions :=
      db.post_study_questions.filter (fun q => !(removedStudyIds.contains q.study_id)) }

/-- `DELETE /scenario-groups/{group_id}` (`main.delete_scenario_group`):
404 if missing, 403 unless the caller is the creator, else delete with
cascades. -/
def delete_scenario_group (db : Db) (group_id : Nat) (current_user : Nat) :
    Except ApiError Db :=
  match findScenarioGroup db group_id with
  | none => .error .notFound
  | some group =>
    if group.created_by_user_id != current_user then .error .authorization
    else .ok (deleteScenarioGroupCascade db group_id)

/-- `POST /scenario-groups/{group_id}/editors` (`main.add_scenario_group_editor`):
404 if the group is missing, 403 unless the caller is the creator, 404 if the
user is missing, 400 if already an editor, else insert the editor link. -/
def add_scenario_group_editor (db : Db) (group_id user_id current_user : Nat) :
    Except ApiError Db :=
  match findScenarioGroup db group_id with
  | none => .error .notFound
  | some group =>
    if group.created_by_user_id != current_user then .error .authorization
    else match db.users.find? (fun u => u.id == user_id) with
    | none => .error .notFound
    | some _ =>
      if isGroupEditor db group_id user_id then .error .validation
      else .ok { db with
        scenario_group_editors := db.scenario_group_editors ++
          [{ id := db.nextId, scenario_group_id := group_id, user_id := user_id }],
        nextId := db.nextId + 1 }

/-- `DELETE /scenario-groups/{group_id}/editors/{user_id}`
(`main.remove_scenario_group_editor`): 404 if the group is missing, 403 unless
the caller is the creator, 404 if the editor link is missing, else delete it. -/
def remove_scenario_group_editor (db : Db) (group_id user_id current_user : Nat) :
    Except ApiError Db :=
  match findScenarioGroup db group_id with
  | none => .error .notFound
  | some group =>
    if group.created_by_user_id != current_user then .error .authorization
    else match db.scenario_group_editors.find?
        (fun e => e.scenario_group_id == group_id && e.user_id == user_id) with
    | none => .error .notFound
    | some editor =>
      .ok { db with scenario_group_editors :=
        db.scenario_group_editors.filter (fun e => e.id != editor.id) }

/-- `POST /scenario-groups/{group_id}/items` (`main.add_scenario_group_item`):
404 if the group is missing, 403 unless creator or editor, 404 if the train
configuration is missing, else insert the item. -/
def add_scenario_group_item (db : Db) (group_id : Nat) (item : ScenarioGroupItemCreate)
    (current_user : Nat) : Except ApiError Db :=
  match findScenarioGroup db group_id with
  | none => .error .notFound
  | some group =>
    if !(group.created_by_user_id == current_user || isGroupEditor db group_id current_user) then
      .error .authorization
    else match findTrainConfiguration db item.train_configuration_id with
    | none => .error .notFound
    | some _ =>
      .ok { db with
        scenario_group_items := db.scenario_group_items ++
          [{ id := db.nextId, scenario_group_id := group_id,
             train_configuration_id := item.train_configuration_id, order := item.order }],
        nextId := db.nextId + 1 }

/-- `PUT /scenario-groups/{group_id}/items/{item_id}`
(`main.update_scenario_group_item`): 404 if the group is missing, 403 unless
creator or editor, 404 if the item is not in the group, 404 if a changed train
configuration is missing, else update the item in place. -/
def update_scenario_group_item (db : Db) (group_id item_id : Nat)
    (item_update : ScenarioGroupItemCreate) (current_user : Nat) : Except ApiError Db :=
  match findScenarioGroup db group_id with
  | none => .error .notFound
  | some group =>
    if !(group.created_by_user_id == current_user || isGroupEditor db group_id current_user) then
      .error .authorization
    else match db.scenario_group_items.find?
        (fun i => i.id == item_id && i.scenario_group_id == group_id) with
    | none => .error .notFound
    | some db_item =>
      if item_update.train_configuration_id != db_item.train_configuration_id &&
          (findTrainConfiguration db item_update.train_configuration_id).isNone then
        .error .notFound
      else
        let upd := fun (i : ScenarioGroupItem) =>
          { i with train_configuration_id := item_update.train_configuration_id,
                   order := item_update.order }
        let items := updateFirst
          (fun i => i.id == item_id && i.scenario_group_id == group_id) upd
          db.scenario_group_items
        .ok { db with scenario_group_items := items }

/-- `DELETE /scenario-groups/{group_id}/items/{item_id}`
(`main.delete_scenario_group_item`): 404 if the group is missing, 403 unless
creator or editor, 404 if the item is not in the group, else delete it. -/
def delete_scenario_group_item (db : Db) (group_id item_id current_user : Nat) :
    Except ApiError Db :=
  match findScenarioGroup db group_id with
  | none => .error .notFound
  | some group =>
    if !(group.created_by_user_id == current_user || isGroupEditor db group_id current_user) then
      .error .authorization
    else match db.scenario_group_items.find?
        (fun i => i.id == item_id && i.scenario_group_id == group_id) with
    | none => .error .notFound
    | some _ =>
      let items := db.scenario_group_items.filter
        (fun i => !(i.id == item_id && i.scenario_group_id == group_id))
      .ok { db with scenario_group_items := items }

/-! ### TrainConfiguration endpoints -/

/-- Body of scenario create/update, after `schemas.TrainConfigurationCreate`. -/
structure TrainConfigurationCreate where
  name : Option String
  title : Option String
  height : Nat
  width : Nat
  tiles : List (List Tile)
deriving DecidableEq, Repr

/-- `main.DEFAULT_TAGS`. -/
def DEFAULT_TAGS : List String :=
  ["comfort", "maximizing personal space", "accessibility", "convenience",
   "privacy", "safety", "view", "proximity to door"]

/-- `main.get_or_create_default_tags`: per default tag text, reuse the
existing `QuestionTag` row or insert a system-created one; returns the store
and the tag rows in `DEFAULT_TAGS` order. -/
def get_or_create_default_tags (db : Db) : Db × List QuestionTag :=
  DEFAULT_TAGS.foldl
    (fun (acc : Db × List QuestionTag) tag_text =>
      match acc.1.question_tags.find? (fun t => t.tag_text == tag_text) with
      | some tag => (acc.1, acc.2 ++ [tag])
      | none =>
        let tag : QuestionTag :=
          { id := acc.1.nextId, tag_text := tag_text, is_default := true,
            created_by_user_id := none }
        ({ acc.1 with question_tags := acc.1.question_tags ++ [tag],
                      nextId := acc.1.nextId + 1 },
         acc.2 ++ [tag]))
    (db, [])

/-- Assignment rows created by the `for order, tag in enumerate(default_tags)`
loop of `main.create_train_configuration`. -/
def mkDefaultAssignments (qid : Nat) : Nat → Nat → List QuestionTag → List QuestionTagAssignment
  | _, _, [] => []
  | nid, ord, tag :: rest =>
    { id := nid, question_id := qid, tag_id := tag.id, order := ord } ::
      mkDefaultAssignments qid (nid + 1) (ord + 1) rest

/-- Success path of `main.create_train_configuration`: store the scenario,
its default question, the default `PostResponseQuestion` and the default tag
assignments; returns the new store and the stored scenario. -/
def createTrainConfigurationStore (db : Db) (config : TrainConfigurationCreate) :
    Db × TrainConfiguration :=
  let db_config : TrainConfiguration :=
    { id := db.nextId, name := config.name, title := config.title,
      height := config.height, width := config.width, tiles := config.tiles }
  let db1 := { db with train_configurations := db.train_configurations ++ [db_config],
                       nextId := db.nextId + 1 }
  let default_question : Question :=
    { id := db1.nextId, question_text := "Why did you choose this spot?",
      allows_free_text := true, allows_tags := true, allows_multiple_tags := true }
  let db2 := { db1 with questions := db1.questions ++ [default_question],
                        nextId := db1.nextId + 1 }
  let default_prq : PostResponseQuestion :=
    { id := db2.nextId, question_id := default_question.id,
      train_configuration_id := db_config.id, is_required := false,
      free_text_required := false, order := 0, is_default := true }
  let db3 := { db2 with post_response_questions := db2.post_response_questions ++ [default_prq],
                        nextId := db2.nextId + 1 }
  let defaults := get_or_create_default_tags db3
  let db4 := defaults.1
  let assignments := mkDefaultAssignments default_question.id db4.nextId 0 defaults.2
  let db5 := { db4 with
    question_tag_assignments := db4.question_tag_assignments ++ assignments,
    nextId := db4.nextId + defaults.2.length }
  (db5, db_config)

/-- `POST /train-configurations` (`main.create_train_configuration`):
400 if the tile matrix row count differs from `height` or any row length from
`width`; otherwise store the scenario with its defaults. -/
def create_train_configuration (db : Db) (config : TrainConfigurationCreate) :
    Except ApiError (Db × TrainConfiguration) :=
  if config.tiles.length != config.height then .error .validation
  else if config.tiles.any (fun row => row.length != config.width) then .error .validation
  else .ok (createTrainConfigurationStore db config)

/-- `PUT /train-configurations/{config_id}` (`main.update_train_configuration`):
404 if the scenario is missing, 400 on a tile-dimension mismatch, else update
the row in place. -/
def update_train_configuration (db : Db) (config_id : Nat)
    (config : TrainConfigurationCreate) : Except ApiError (Db × TrainConfiguration) :=
  match findTrainConfiguration db config_id with
  | none => .error .notFound
  | some db_config =>
    if config.tiles.length != config.height then .error .validation
    else if config.tiles.any (fun row => row.length != config.width) then .error .validation
    else
      let upd := fun (c : TrainConfiguration) =>
        { c with name := config.name, title := config.title, height := config.height,
                 width := config.width, tiles := config.tiles }
      let configs := updateFirst (fun c => c.id == config_id) upd db.train_configurations
      .ok ({ db with train_configurations := configs }, upd db_config)

/-! ### Tag-assignment reconciliation

The reconciliation steps of `main.update_post_response_question`
(lines 2306-2343) and `main.update_pre_study_question` (lines 1886-1925),
embedded as functions of the `question_tag_assignments` table, the
`question_tags` table, the question id and the desired ordered tag-id list.
New rows draw ids from `nid`. -/

/-- The insertion loop shared by both paths
(`for order, tag_id in enumerate(...)`): a desired tag id not currently
assigned is inserted with its position as `order`, and silently skipped if no
`QuestionTag` row with that id exists. -/
def insertNewAssignments (tagTable : List QuestionTag) (existingIds : List Nat)
    (qid : Nat) : Nat → Nat → List Nat → List QuestionTagAssignment
  | _, _, [] => []
  | nid, ord, t :: rest =>
    if existingIds.contains t then
      insertNewAssignments tagTable existingIds qid nid (ord + 1) rest
    else if tagTable.any (fun tag => tag.id == t) then
      { id := nid, question_id := qid, tag_id := t, order := ord } ::
        insertNewAssignments tagTable existingIds qid (nid + 1) (ord + 1) rest
    else
      insertNewAssignments tagTable existingIds qid nid (ord + 1) rest

/-- Reconciliation step of `main.update_post_response_question`: delete the
question's assignments whose tag left the desired list, insert desired tags
not yet assigned, and set each retained assignment's `order` to
`question_data.tag_ids.index(assignment.tag_id)`. -/
def reconcileTagsPost (assignments : List QuestionTagAssignment)
    (tagTable : List QuestionTag) (qid : Nat) (tag_ids : List Nat) (nid : Nat) :
    List QuestionTagAssignment :=
  let existing := assignments.filter (fun a => a.question_id == qid)
  let existingIds := existing.map (fun a => a.tag_id)
  let kept := assignments.filter (fun a => a.question_id != qid || tag_ids.contains a.tag_id)
  let inserted := insertNewAssignments tagTable existingIds qid nid 0 tag_ids
  let reordered := kept.map (fun a =>
    if a.question_id == qid && tag_ids.contains a.tag_id then
      { a with order := tag_ids.indexOf a.tag_id }
    else a)
  reordered ++ inserted

/-- `existing_assignment.order = order` on the first assignment of `qid` with
tag `t`, as the inner `for ... break` loop of `main.update_pre_study_question`
performs it. -/
def setFirstTagOrder (qid t ord : Nat) : List QuestionTagAssignment → List QuestionTagAssignment
  | [] => []
  | a :: rest =>
    if a.question_id == qid && a.tag_id == t then { a with order := ord } :: rest
    else a :: setFirstTagOrder qid t ord rest

/-- The `for order, tag_id in enumerate(question_data.tag_ids)` loop of
`main.update_pre_study_question`: a tag in `tags_to_add` (desired but not
current) is inserted unless unknown; otherwise the first current assignment
with that tag gets the new `order`. -/
def preReconcileLoop (tagTable : List QuestionTag) (currentIds : List Nat) (qid : Nat) :
    List QuestionTagAssignment → List QuestionTagAssignment → Nat → Nat → List Nat →
    List QuestionTagAssignment × List QuestionTagAssignment
  | kept, inserted, _, _, [] => (kept, inserted)
  | kept, inserted, nid, ord, t :: rest =>
    if !(currentIds.contains t) then
      if tagTable.any (fun tag => tag.id == t) then
        preReconcileLoop tagTable currentIds qid kept
          (inserted ++ [{ id := nid, question_id := qid, tag_id := t, order := ord }])
          (nid + 1) (ord + 1) rest
      else
        preReconcileLoop tagTable currentIds qid kept inserted nid (ord + 1) rest
    else
      preReconcileLoop tagTable currentIds qid (setFirstTagOrder qid t ord kept) inserted
        nid (ord + 1) rest

/-- Reconciliation step of `main.update_pre_study_question`: delete the
question's assignments whose tag is in `tags_to_remove`, then run the
enumerate loop for inserts and order updates. -/
def reconcileTagsPre (assignments : List QuestionTagAssignment)
    (tagTable : List QuestionTag) (qid : Nat) (tag_ids : List Nat) (nid : Nat) :
    List QuestionTagAssignment :=
  let current := assignments.filter (fun a => a.question_id == qid)
  let currentIds := current.map (fun a => a.tag_id)
  let kept := assignments.filter (fun a => a.question_id != qid || tag_ids.contains a.tag_id)
  let result := preReconcileLoop tagTable currentIds qid kept [] nid 0 tag_ids
  result.1 ++ result.2

/-! ### Question deletion -/

/-- `db.delete(post_response_question)` with the cascades declared on
`models.PostResponseQuestion`: the row goes away together with its question
responses and their selected-tag links. -/
def deletePostResponseQuestionRow (db : Db) (prq : PostResponseQuestion) : Db :=
  let removedQrIds :=
    (db.question_responses.filter
      (fun qr => qr.post_response_question_id == prq.id)).map (fun qr => qr.id)
  { db with
    post_response_questions := db.post_response_questions.filter (fun p => p.id != prq.id),
    question_responses :=
      db.question_responses.filter (fun qr => qr.post_response_question_id != prq.id),
    question_response_tags :=
      db.question_response_tags.filter
        (fun rt => !(removedQrIds.contains rt.question_response_id)) }

/-- Deletion of the shared `Question`: the endpoint removes its tag
assignments explicitly, and `db.delete(question)` cascades any remaining
pre/post-study links per `models.Question`. -/
def deleteQuestionCascade (db : Db) (question_id : Nat) : Db :=
  { db with
    question_tag_assignments :=
      db.question_tag_assignments.filter (fun a => a.question_id != question_id),
    questions := db.questions.filter (fun q => q.id != question_id),
    pre_study_questions :=
      db.pre_study_questions.filter (fun q => q.question_id != question_id),
    post_study_questions :=
      db.post_study_questions.filter (fun q => q.question_id != question_id) }

/-- `DELETE /train-configurations/{config_id}/questions/{prq_id}`
(`main.delete_post_response_question`): 404 if the `PostResponseQuestion` is
not attached to the scenario; delete it (its question responses and their tag
links cascade); then, if no *other* `PostResponseQuestion` references the
underlying `Question`, delete the question's tag assignments and the question
itself (whose remaining pre/post-study links cascade per `models.Question`). -/
def delete_post_response_question (db : Db) (config_id post_response_question_id : Nat) :
    Except ApiError Db :=
  match db.post_response_questions.find?
      (fun p => p.id == post_response_question_id &&
                p.train_configuration_id == config_id) with
  | none => .error .notFound
  | some prq =>
    let db1 := deletePostResponseQuestionRow db prq
    let other_posts := db1.post_response_questions.filter
      (fun p => p.question_id == prq.question_id && p.id != post_response_question_id)
    if other_posts.isEmpty then .ok (deleteQuestionCascade db1 prq.question_id)
    else .ok db1

/-! ### Tag statistics -/

/-- Entry of the tag-statistics payload, after `schemas.TagStatisticsResponse`. -/
structure TagStatisticsResponse where
  tag_id : Nat
  tag_text : String
  selection_count : Nat
deriving DecidableEq, Repr

/-- Stable insertion preserving descending `selection_count` order: the new
entry goes after every entry with a count at least as large, as Python's
stable `list.sort(key=..., reverse=True)` keeps ties in encounter order. -/
def insertTagStatDesc (x : TagStatisticsResponse) :
    List TagStatisticsResponse → List TagStatisticsResponse
  | [] => [x]
  | y :: ys =>
    if y.selection_count < x.selection_count then x :: y :: ys
    else y :: insertTagStatDesc x ys

/-- `statistics.sort(key=lambda x: x.selection_count, reverse=True)`:
stable sort by descending selection count. -/
def sortTagStatsDesc (l : List TagStatisticsResponse) : List TagStatisticsResponse :=
  l.foldl (fun acc x => insertTagStatDesc x acc) []

/-- The double loop `for qr in question_responses: for response_tag in
qr.selected_tags:` flattened: the QuestionResponseTag rows of each response
to the question, in response order. -/
def tagSelectionRows (db : Db) (post_response_question_id : Nat) :
    List QuestionResponseTag :=
  (db.question_responses.filter
      (fun qr => qr.post_response_question_id == post_response_question_id)).flatMap
    (fun qr => db.question_response_tags.filter
      (fun rt => rt.question_response_id == qr.id))

/-- The `tag_counts` dictionary: `tag_counts[tag_id] += 1` over the selected
tag rows. -/
def tagSelectionCounts (db : Db) (post_response_question_id : Nat) :
    List (Nat × Nat) :=
  (tagSelectionRows db post_response_question_id).foldl
    (fun m rt => bumpCount rt.tag_id m) []

/-- One entry of the `statistics` list: kept only when the tag row exists
(`if tag_id in tags`). -/
def tagStatEntry (tags : List QuestionTag) (tc : Nat × Nat) :
    Option TagStatisticsResponse :=
  match tags.find? (fun t => t.id == tc.1) with
  | some tag => some { tag_id := tc.1, tag_text := tag.tag_text, selection_count := tc.2 }
  | none => none

/-- The sorted `statistics` payload built by `main.get_tag_statistics`. -/
def tagStatisticsList (db : Db) (post_response_question_id : Nat) :
    List TagStatisticsResponse :=
  sortTagStatsDesc ((tagSelectionCounts db post_response_question_id).filterMap
    (tagStatEntry db.question_tags))

/-- `GET /train-configurations/{config_id}/questions/{prq_id}/tag-statistics`
(`main.get_tag_statistics`): 404 if the question is not attached to the
scenario; count tag selections over the question's responses; keep counts
whose tag row exists; sort descending by count. -/
def get_tag_statistics (db : Db) (config_id post_response_question_id : Nat) :
    Except ApiError (List TagStatisticsResponse) :=
  match db.post_response_questions.find?
      (fun p => p.id == post_response_question_id &&
                p.train_configuration_id == config_id) with
  | none => .error .notFound
  | some _ => .ok (tagStatisticsList db post_response_question_id)

/-! ### Example stores -/

/-- Store with every table empty. -/
def emptyDb : Db :=
  { train_configurations := [], user_responses := [], users := [],
    scenario_groups := [], scenario_group_editors := [], scenario_group_items := [],
    studies := [], questions := [], post_response_questions := [],
    pre_study_questions := [], post_study_questions := [], question_tags := [],
    question_tag_assignments := [], question_responses := [], question_response_tags := [],
    nextId := 1, now := 0 }

/-- An unoccupied floor tile. -/
def floorTile : Tile :=
  { type := "floor", occupied := false, person := none, isDoor := none, isStanchion := none }

/-- A 1×1 all-floor scenario with id 1. -/
def tinyConfig : TrainConfiguration :=
  { id := 1, name := none, title := none, height := 1, width := 1, tiles := [[floorTile]] }

/-- A seat/floor response row for examples. -/
def mkResponse (id : Nat) (cfg : Nat) (row col : Int) (sel : String)
    (sess : Option String) : UserResponse :=
  { id := id, train_configuration_id := cfg, row := row, col := col,
    selection_type := sel, user_session_id := sess, user_id := none,
    gender := none, created_at := 0 }

/-- A 2×3 all-floor scenario with id 1. -/
def c7Config : TrainConfiguration :=
  { id := 1, name := none, title := none, height := 2, width := 3,
    tiles := [[floorTile, floorTile, floorTile], [floorTile, floorTile, floorTile]] }

/-- Store for the statistics example: a 2×3 scenario with two "seat"
responses at (0,0) and one "floor" response at (1,2). -/
def c7Db : Db :=
  { emptyDb with
    train_configurations := [c7Config],
    user_responses :=
      [mkResponse 1 1 0 0 "seat" none, mkResponse 2 1 0 0 "seat" none,
       mkResponse 3 1 1 2 "floor" none],
    nextId := 4 }

/-- Submission with a negative row against a scenario id that does not exist. -/
def c5Req : UserResponseCreate :=
  { train_configuration_id := 1, row := -1, col := 0, selection_type := "seat",
    user_session_id := none, user_id := none, gender := none }

/-- Schema-valid submission against a scenario id that does not exist. -/
def c5ValidReq : UserResponseCreate :=
  { train_configuration_id := 1, row := 0, col := 0, selection_type := "seat",
    user_session_id := none, user_id := none, gender := none }

/-- Store holding only the 1×1 scenario. -/
def c1ConfigDb : Db :=
  { emptyDb with train_configurations := [tinyConfig], nextId := 2 }

/-- Store with the 1×1 scenario and a stored response whose session id is the
empty string. -/
def c1EmptySessDb : Db :=
  { emptyDb with
    train_configurations := [tinyConfig],
    user_responses := [mkResponse 1 1 0 0 "floor" (some "")],
    nextId := 2 }

/-- Submission with the (non-null) empty-string session id. -/
def c1EmptySessReq : UserResponseCreate :=
  { train_configuration_id := 1, row := 0, col := 0, selection_type := "seat",
    user_session_id := some "", user_id := none, gender := none }

/-- First submission of session "s1". -/
def c1Req1 : UserResponseCreate :=
  { train_configuration_id := 1, row := 0, col := 0, selection_type := "seat",
    user_session_id := some "s1", user_id := none, gender := none }

/-- Second submission of session "s1" with different values. -/
def c1Req2 : UserResponseCreate :=
  { train_configuration_id := 1, row := 0, col := 0, selection_type := "floor",
    user_session_id := some "s1", user_id := none, gender := some "woman" }

/-- Row stored by the first submission. -/
def c1Resp1 : UserResponse := mkResponse 2 1 0 0 "seat" (some "s1")

/-- Store after the first submission. -/
def c1Db1 : Db :=
  { c1ConfigDb with user_responses := [c1Resp1], nextId := 3 }

/-- Row after the second submission overwrote the first. -/
def c1Resp2 : UserResponse :=
  { c1Resp1 with selection_type := "floor", gender := some "woman" }

/-- Store after the second submission. -/
def c1Db2 : Db :=
  { c1ConfigDb with user_responses := [c1Resp2], nextId := 3 }

/-- Stored response of session "s1" carrying a `user_id` and timestamp. -/
def c10r : UserResponse :=
  { id := 1, train_configuration_id := 1, row := 0, col := 0,
    selection_type := "floor", user_session_id := some "s1", user_id := some "alice",
    gender := none, created_at := 5 }

/-- Store with the 1×1 scenario and `c10r` stored. -/
def c10Db : Db :=
  { emptyDb with
    train_configurations := [tinyConfig],
    user_responses := [c10r],
    nextId := 2 }

/-- Update submission from session "s1" supplying a different `user_id`. -/
def c10Req : UserResponseCreate :=
  { train_configuration_id := 1, row := 0, col := 0, selection_type := "seat",
    user_session_id := some "s1", user_id := some "bob", gender := some "man" }

/-- A shared question row. -/
def c4Question : Question :=
  { id := 1, question_text := "Why did you choose this spot?",
    allows_free_text := true, allows_tags := true, allows_multiple_tags := true }

/-- Store where question 1 is attached both to scenario 1 (post-response
question 1) and to study 1 (pre-study question 1). -/
def c4Db : Db :=
  { emptyDb with
    questions := [c4Question],
    post_response_questions :=
      [{ id := 1, question_id := 1, train_configuration_id := 1, is_required := false,
         free_text_required := false, order := 0, is_default := false }],
    pre_study_questions := [{ id := 1, question_id := 1, study_id := 1, order := 0 }],
    nextId := 2 }

/-- Two stored tags, ids 5 and 7. -/
def c2Table : List QuestionTag :=
  [{ id := 5, tag_text := "comfort", is_default := true, created_by_user_id := none },
   { id := 7, tag_text := "privacy", is_default := true, created_by_user_id := none }]

/-- Assignment table: question 1 carries tag 7, question 2 carries tag 5. -/
def c2Assignments : List QuestionTagAssignment :=
  [{ id := 1, question_id := 1, tag_id := 7, order := 0 },
   { id := 2, question_id := 2, tag_id := 5, order := 0 }]

/-- Store where question 1 is attached to scenarios 1 and 2 through two
post-response questions. -/
def c4TwoDb : Db :=
  { emptyDb with
    questions := [c4Question],
    post_response_questions :=
      [{ id := 1, question_id := 1, train_configuration_id := 1, is_required := false,
         free_text_required := false, order := 0, is_default := false },
       { id := 2, question_id := 1, train_configuration_id := 2, is_required := false,
         free_text_required := false, order := 0, is_default := false }],
    nextId := 3 }

/-- Store holding one scenario group (id 1, created by user 10) and no
editors. -/
def groupDb : Db := { emptyDb with scenario_groups := [{ id := 1, created_by_user_id := 10 }] }

/-- Spec-side selection count of tag `t` for question `prq_id`, written from
the specification's words for comparison with `get_tag_statistics`: the
number of QuestionResponseTag rows carrying tag `t` that belong to a
response to that question. -/
def specSelectionCount (db : Db) (prq_id t : Nat) : Nat :=
  db.question_response_tags.countP (fun rt =>
    rt.tag_id == t &&
    db.question_responses.any (fun qr =>
      qr.post_response_question_id == prq_id && qr.id == rt.question_response_id))

/-- Store for the C8 witness: question 1 has two responses; tag 5 is selected
on both and tag 7 on the first only. -/
def c8Db : Db :=
  { emptyDb with
    post_response_questions :=
      [{ id := 1, question_id := 1, train_configuration_id := 1, is_required := false,
         free_text_required := false, order := 0, is_default := false }],
    question_tags :=
      [{ id := 5, tag_text := "comfort", is_default := true, created_by_user_id := none },
       { id := 7, tag_text := "privacy", is_default := true, created_by_user_id := none }],
    question_responses :=
      [{ id := 1, user_response_id := 1, post_response_question_id := 1,
         free_text_response := none },
       { id := 2, user_response_id := 2, post_response_question_id := 1,
         free_text_response := none }],
    question_response_tags :=
      [{ id := 1, question_response_id := 1, tag_id := 5 },
       { id := 2, question_response_id := 1, tag_id := 7 },
       { id := 3, question_response_id := 2, tag_id := 5 }],
    nextId := 4 }

/-! ### C3: mutating ScenarioGroup endpoints, 404 before 403 -/

/-- C3: for every mutating ScenarioGroup endpoint, a missing group yields
NotFound regardless of the caller, and an existing group with a caller that is
neither creator nor editor yields an Authorization error, never NotFound. -/
theorem scenario_group_mutations_auth (db : Db) (group_id current_user user_id item_id : Nat)
    (itemC itemU : ScenarioGroupItemCreate) :
    (findScenarioGroup db group_id = none →
      update_scenario_group db group_id current_user = .error .notFound ∧
      delete_scenario_group db group_id current_user = .error .notFound ∧
      add_scenario_group_editor db group_id user_id current_user = .error .notFound ∧
      remove_scenario_group_editor db group_id user_id current_user = .error .notFound ∧
      add_scenario_group_item db group_id itemC current_user = .error .notFound ∧
      update_scenario_group_item db group_id item_id itemU current_user = .error .notFound ∧
      delete_scenario_group_item db group_id item_id current_user = .error .notFound) ∧
    (∀ group, findScenarioGroup db group_id = some group →
      group.created_by_user_id ≠ current_user →
      isGroupEditor db group_id current_user = false →
      update_scenario_group db group_id current_user = .error .authorization ∧
      delete_scenario_group db group_id current_user = .error .authorization ∧
      add_scenario_group_editor db group_id user_id current_user = .error .authorization ∧
      remove_scenario_group_editor db group_id user_id current_user = .error .authorization ∧
      add_scenario_group_item db group_id itemC current_user = .error .authorization ∧
      update_scenario_group_item db group_id item_id itemU current_user = .error .authorization ∧
      delete_scenario_group_item db group_id item_id current_user = .error .authorization) := by
  constructor
  · intro h
    refine ⟨?_, ?_, ?_, ?_, ?_, ?_, ?_⟩ <;>
      simp [update_scenario_group, delete_scenario_group, add_scenario_group_editor,
            remove_scenario_group_editor, add_scenario_group_item,
            update_scenario_group_item, delete_scenario_group_item, h]
  · intro group h hc he
    refine ⟨?_, ?_, ?_, ?_, ?_, ?_, ?_⟩ <;>
      simp [update_scenario_group, delete_scenario_group, add_scenario_group_editor,
            remove_scenario_group_editor, add_scenario_group_item,
            update_scenario_group_item, delete_scenario_group_item, h, he,
            Ne.symm hc, hc]

/-- Witness for C3 at concrete stores: a missing group (empty store) gives
NotFound, and a stranger (user 2) against `groupDb` gives Authorization. -/
theorem scenario_group_mutations_auth_witness :
    update_scenario_group emptyDb 1 2 = .error .notFound ∧
    update_scenario_group groupDb 1 2 = .error .authorization ∧
    delete_scenario_group groupDb 1 2 = .error .authorization :=
  ⟨((scenario_group_mutations_auth emptyDb 1 2 3 4
      { train_configuration_id := 1, order := 0 }
      { train_configuration_id := 1, order := 0 }).1 (by decide)).1,
   (((scenario_group_mutations_auth groupDb 1 2 3 4
      { train_configuration_id := 1, order := 0 }
      { train_configuration_id := 1, order := 0 }).2 { id := 1, created_by_user_id := 10 }
      (by decide) (by decide) (by decide))).1,
   (((scenario_group_mutations_auth groupDb 1 2 3 4
      { train_configuration_id := 1, order := 0 }
      { train_configuration_id := 1, order := 0 }).2 { id := 1, created_by_user_id := 10 }
      (by decide) (by decide) (by decide))).2.1⟩

/-! ### C9: group deletion cascades items and editor links, keeps scenarios -/

/-- Store with group 1 (creator 10), one item referencing scenario 1, one
editor link for user 11, and scenario 1 stored. -/
def c9Db : Db :=
  { groupDb with
    train_configurations := [tinyConfig],
    scenario_group_items :=
      [{ id := 1, scenario_group_id := 1, train_configuration_id := 1, order := 0 }],
    scenario_group_editors := [{ id := 2, scenario_group_id := 1, user_id := 11 }] }

/-- C9: deleting a scenario group as its creator removes exactly the group's
items and editor links and leaves the stored train configurations unchanged. -/
theorem delete_scenario_group_cascade (db : Db) (gid uid : Nat) (group : ScenarioGroup)
    (hfind : findScenarioGroup db gid = some group)
    (hcreator : group.created_by_user_id = uid) :
    ∃ db', delete_scenario_group db gid uid = .ok db' ∧
      (∀ i ∈ db'.scenario_group_items, i.scenario_group_id ≠ gid) ∧
      (∀ e ∈ db'.scenario_group_editors, e.scenario_group_id ≠ gid) ∧
      db'.scenario_group_items =
        db.scenario_group_items.filter (fun i => i.scenario_group_id != gid) ∧
      db'.scenario_group_editors =
        db.scenario_group_editors.filter (fun e => e.scenario_group_id != gid) ∧
      db'.train_configurations = db.train_configurations := by
  refine ⟨deleteScenarioGroupCascade db gid, ?_, ?_, ?_, rfl, rfl, rfl⟩
  · unfold delete_scenario_group
    rw [hfind]
    simp [hcreator]
  · intro i hi
    have := List.of_mem_filter hi
    simpa using this
  · intro e he
    have := List.of_mem_filter he
    simpa using this

/-- Witness for C9: a creator-issued delete on a store with one group, one
item, one editor link and one scenario. -/
theorem delete_scenario_group_cascade_witness :
    findScenarioGroup c9Db 1 = some { id := 1, created_by_user_id := 10 } ∧
    ∃ db', delete_scenario_group c9Db 1 10 = .ok db' ∧
      (∀ i ∈ db'.scenario_group_items, i.scenario_group_id ≠ 1) ∧
      (∀ e ∈ db'.scenario_group_editors, e.scenario_group_id ≠ 1) ∧
      db'.scenario_group_items =
        c9Db.scenario_group_items.filter (fun i => i.scenario_group_id != 1) ∧
      db'.scenario_group_editors =
        c9Db.scenario_group_editors.filter (fun e => e.scenario_group_id != 1) ∧
      db'.train_configurations = c9Db.train_configurations :=
  ⟨by decide,
   delete_scenario_group_cascade c9Db 1 10 { id := 1, created_by_user_id := 10 }
     (by decide) rfl⟩

/-! ### C6: tile-matrix dimension check -/

/-- `get_or_create_default_tags` only touches `question_tags` and `nextId`;
in particular the stored scenarios are unchanged. -/
theorem get_or_create_default_tags_preserves (db : Db) :
    (get_or_create_default_tags db).1.train_configurations = db.train_configurations ∧
    (get_or_create_default_tags db).1.questions = db.questions ∧
    (get_or_create_default_tags db).1.post_response_questions = db.post_response_questions ∧
    (get_or_create_default_tags db).1.question_tag_assignments = db.question_tag_assignments := by
  unfold get_or_create_default_tags
  generalize DEFAULT_TAGS = l
  suffices h : ∀ (l : List String) (acc : Db × List QuestionTag),
      (l.foldl (fun acc tag_text =>
        match acc.1.question_tags.find? (fun t => t.tag_text == tag_text) with
        | some tag => (acc.1, acc.2 ++ [tag])
        | none =>
          let tag : QuestionTag :=
            { id := acc.1.nextId, tag_text := tag_text, is_default := true,
              created_by_user_id := none }
          ({ acc.1 with question_tags := acc.1.question_tags ++ [tag],
                        nextId := acc.1.nextId + 1 },
           acc.2 ++ [tag])) acc).1.train_configurations = acc.1.train_configurations ∧
      (l.foldl _ acc).1.questions = acc.1.questions ∧
      (l.foldl _ acc).1.post_response_questions = acc.1.post_response_questions ∧
      (l.foldl _ acc).1.question_tag_assignments = acc.1.question_tag_assignments by
    exact h l (db, [])
  intro l
  induction l with
  | nil => intro acc; exact ⟨rfl, rfl, rfl, rfl⟩
  | cons s rest ih =>
    intro acc
    simp only [List.foldl_cons]
    cases hfind : acc.1.question_tags.find? (fun t => t.tag_text == s) with
    | some tag => simpa [hfind] using ih (acc.1, acc.2 ++ [tag])
    | none =>
      have := ih ({ acc.1 with
        question_tags := acc.1.question_tags ++
          [{ id := acc.1.nextId, tag_text := s, is_default := true,
             created_by_user_id := none }],
        nextId := acc.1.nextId + 1 },
        acc.2 ++ [{ id := acc.1.nextId, tag_text := s, is_default := true,
                    created_by_user_id := none }])
      simpa [hfind] using this

/-- The success path stores exactly one new scenario carrying the submitted
dimensions and tiles. -/
theorem createTrainConfigurationStore_spec (db : Db) (config : TrainConfigurationCreate) :
    (createTrainConfigurationStore db config).1.train_configurations =
      db.train_configurations ++ [(createTrainConfigurationStore db config).2] ∧
    (createTrainConfigurationStore db config).2.height = config.height ∧
    (createTrainConfigurationStore db config).2.width = config.width ∧
    (createTrainConfigurationStore db config).2.tiles = config.tiles := by
  have h := get_or_create_default_tags_preserves
  refine ⟨?_, rfl, rfl, rfl⟩
  simp only [createTrainConfigurationStore]
  rw [(h _).1]

/-- C6: a scenario is stored (on create) exactly when the tile matrix has
`height` rows each of length `width`; otherwise the request fails with a
Validation error; the same dimension check guards scenario update. -/
theorem tile_dimension_check (db : Db) (config : TrainConfigurationCreate) :
    ((config.tiles.length = config.height ∧
        ∀ row ∈ config.tiles, row.length = config.width) →
      ∃ db' c, create_train_configuration db config = .ok (db', c) ∧
        db'.train_configurations = db.train_configurations ++ [c] ∧
        c.height = config.height ∧ c.width = config.width ∧ c.tiles = config.tiles) ∧
    (¬(config.tiles.length = config.height ∧
        ∀ row ∈ config.tiles, row.length = config.width) →
      create_train_configuration db config = .error .validation) ∧
    (∀ config_id c0, findTrainConfiguration db config_id = some c0 →
      ((config.tiles.length = config.height ∧
          ∀ row ∈ config.tiles, row.length = config.width) →
        ∃ db' c, update_train_configuration db config_id config = .ok (db', c) ∧
          c.height = config.height ∧ c.width = config.width ∧ c.tiles = config.tiles) ∧
      (¬(config.tiles.length = config.height ∧
          ∀ row ∈ config.tiles, row.length = config.width) →
        update_train_configuration db config_id config = .error .validation)) := by
  have hrows : (config.tiles.length != config.height) = false ↔
      config.tiles.length = config.height := by simp
  have hcols : (config.tiles.any (fun row => row.length != config.width)) = false ↔
      ∀ row ∈ config.tiles, row.length = config.width := by
    simp [List.any_eq_true]
  refine ⟨?_, ?_, ?_⟩
  · rintro ⟨h1, h2⟩
    obtain ⟨hs1, hs2, hs3, hs4⟩ := createTrainConfigurationStore_spec db config
    unfold create_train_configuration
    rw [hrows.mpr h1, hcols.mpr h2]
    simp only [Bool.false_eq_true, if_false]
    exact ⟨_, _, rfl, hs1, hs2, hs3, hs4⟩
  · intro h
    unfold create_train_configuration
    rcases Decidable.em (config.tiles.length = config.height) with h1 | h1
    · have h2 : ¬ ∀ row ∈ config.tiles, row.length = config.width := fun h2 => h ⟨h1, h2⟩
      have : (config.tiles.any (fun row => row.length != config.width)) = true := by
        rcases Bool.eq_false_or_eq_true (config.tiles.any fun row => row.length != config.width)
          with ht | hf
        · exact ht
        · exact absurd (hcols.mp hf) h2
      rw [hrows.mpr h1, this]
      simp
    · have : (config.tiles.length != config.height) = true := by
        simpa using h1
      rw [this]
      simp
  · intro config_id c0 hfind
    constructor
    · rintro ⟨h1, h2⟩
      unfold update_train_configuration
      rw [hfind, hrows.mpr h1, hcols.mpr h2]
      simp only [Bool.false_eq_true, if_false]
      exact ⟨_, _, rfl, rfl, rfl, rfl⟩
    · intro h
      unfold update_train_configuration
      rw [hfind]
      rcases Decidable.em (config.tiles.length = config.height) with h1 | h1
      · have h2 : ¬ ∀ row ∈ config.tiles, row.length = config.width := fun h2 => h ⟨h1, h2⟩
        have : (config.tiles.any (fun row => row.length != config.width)) = true := by
          rcases Bool.eq_false_or_eq_true (config.tiles.any fun row => row.length != config.width)
            with ht | hf
          · exact ht
          · exact absurd (hcols.mp hf) h2
        rw [hrows.mpr h1, this]
        simp
      · have : (config.tiles.length != config.height) = true := by
          simpa using h1
        rw [this]
        simp

/-- Witness for C6: a well-formed 1×1 creation succeeds and stores the
scenario; a mismatched one (2 declared rows, 1 given) is rejected. -/
theorem tile_dimension_check_witness :
    (∃ db' c, create_train_configuration emptyDb
        { name := none, title := none, height := 1, width := 1,
          tiles := [[{ type := "floor", occupied := false, person := none,
                       isDoor := none, isStanchion := none }]] } = .ok (db', c) ∧
      db'.train_configurations = emptyDb.train_configurations ++ [c] ∧
      c.height = 1 ∧ c.width = 1 ∧
      c.tiles = [[{ type := "floor", occupied := false, person := none,
                    isDoor := none, isStanchion := none }]]) ∧
    create_train_configuration emptyDb
        { name := none, title := none, height := 2, width := 1,
          tiles := [[{ type := "floor", occupied := false, person := none,
                       isDoor := none, isStanchion := none }]] } = .error .validation :=
  ⟨(tile_dimension_check emptyDb _).1 (by decide),
   (tile_dimension_check emptyDb _).2.1 (by decide)⟩

/-! ### Counter lemmas -/

theorem lookupCount_nil {κ : Type} [BEq κ] (k : κ) :
    lookupCount ([] : List (κ × Nat)) k = none := rfl

/-- Bumping key `k` increments its looked-up count (0 when absent). -/
theorem lookupCount_bumpCount_self {κ : Type} [BEq κ] [LawfulBEq κ]
    (k : κ) (m : List (κ × Nat)) :
    lookupCount (bumpCount k m) k = some ((lookupCount m k).getD 0 + 1) := by
  induction m with
  | nil => simp [bumpCount, lookupCount]
  | cons kv rest ih =>
    obtain ⟨k0, c⟩ := kv
    rcases eq_or_ne k0 k with h | h
    · subst h
      simp [bumpCount, lookupCount]
    · have hb : (k0 == k) = false := by simp [h]
      simp only [bumpCount, hb, if_false, Bool.false_eq_true]
      simp only [lookupCount, List.find?_cons, hb] at ih ⊢
      exact ih

/-- Bumping key `k` leaves other keys' counts unchanged. -/
theorem lookupCount_bumpCount_ne {κ : Type} [BEq κ] [LawfulBEq κ]
    (k k' : κ) (h : k' ≠ k) (m : List (κ × Nat)) :
    lookupCount (bumpCount k m) k' = lookupCount m k' := by
  induction m with
  | nil => simp [bumpCount, lookupCount, Ne.symm h]
  | cons kv rest ih =>
    obtain ⟨k0, c⟩ := kv
    rcases eq_or_ne k0 k with h0 | h0
    · subst h0
      simp [bumpCount, lookupCount, Ne.symm h]
    · have hb0 : (k0 == k) = false := by simp [h0]
      rcases eq_or_ne k0 k' with h1 | h1
      · subst h1
        simp [bumpCount, lookupCount, hb0]
      · have hb1 : (k0 == k') = false := by simp [h1]
        simp only [bumpCount, hb0, if_false, Bool.false_eq_true]
        simp only [lookupCount, List.find?_cons, hb1] at ih ⊢
        exact ih

/-- Folding `bumpCount` over a key list computes occurrence counts on top of
the starting counter. -/
theorem lookupCount_foldl_bump {κ : Type} [BEq κ] [LawfulBEq κ]
    (l : List κ) (acc : List (κ × Nat)) (k : κ) :
    lookupCount (l.foldl (fun m x => bumpCount x m) acc) k =
      if (lookupCount acc k).isSome || l.count k ≠ 0 then
        some ((lookupCount acc k).getD 0 + l.count k)
      else none := by
  induction l generalizing acc with
  | nil => cases h : lookupCount acc k <;> simp [h]
  | cons x rest ih =>
    simp only [List.foldl_cons]
    rw [ih (bumpCount x acc)]
    rcases eq_or_ne k x with hx | hx
    · subst hx
      rw [lookupCount_bumpCount_self]
      simp [List.count_cons]
      cases h : lookupCount acc k <;> simp [h, Nat.add_comm, Nat.add_assoc, Nat.add_left_comm]
    · rw [lookupCount_bumpCount_ne x k hx]
      have : (x :: rest).count k = rest.count k := by
        simp [List.count_cons, hx]
      rw [this]

/-- Counts in `countMap l`: the looked-up value of `k` is its number of
occurrences in `l`, absent when zero. -/
theorem lookupCount_countMap {κ : Type} [BEq κ] [LawfulBEq κ] (l : List κ) (k : κ) :
    lookupCount (countMap l) k = if l.count k = 0 then none else some (l.count k) := by
  unfold countMap
  rw [lookupCount_foldl_bump]
  rcases eq_or_ne (l.count k) 0 with h | h <;> simp [h, lookupCount]

/-- Multiplicity of a key in a mapped list as a `countP` of the source. -/
theorem count_map_eq_countP {α κ : Type} [BEq κ] [LawfulBEq κ] (f : α → κ)
    (l : List α) (k : κ) :
    (l.map f).count k = l.countP (fun a => f a == k) := by
  induction l with
  | nil => rfl
  | cons a rest ih =>
    rcases eq_or_ne (f a) k with h | h <;>
      simp [List.count_cons, List.countP_cons, h, ih, beq_iff_eq]

/-! ### C7: response statistics -/

/-- The filter of `get_response_statistics` matches exactly the responses of
the scenario that satisfy the optional gender filter. -/
theorem statsFilterPred_eq (cid : Nat) (gender : Option String) (r : UserResponse) :
    (r.train_configuration_id == cid &&
      (if pyTruthy gender then r.gender == gender else true)) =
    decide (r.train_configuration_id = cid ∧ (pyTruthy gender = true → r.gender = gender)) := by
  by_cases h : pyTruthy gender = true <;>
    by_cases h2 : r.train_configuration_id = cid <;>
    by_cases h3 : r.gender = gender <;>
    simp [h, h2, h3]

/-- C7: `computeStatistics` returns the number of filter-matching responses,
the "seat" and "floor" counts, and a heatmap sending each `"row,col"` key to
the number of matching responses at that cell; in particular the two-seat
(0,0) / one-floor (1,2) example yields `total=3, seat=2, floor=1,
heatmap 0,0 to 2 and 1,2 to 1`. -/
theorem compute_statistics_spec :
    (∀ (db : Db) (cid : Nat) (gender : Option String) (config : TrainConfiguration),
      findTrainConfiguration db cid = some config →
      ∃ stats, get_response_statistics db cid gender = .ok stats ∧
        stats.train_configuration_id = cid ∧
        stats.total_responses = db.user_responses.countP
          (fun r => decide (r.train_configuration_id = cid ∧
            (pyTruthy gender = true → r.gender = gender))) ∧
        stats.seat_selections = db.user_responses.countP
          (fun r => r.selection_type == "seat" && decide (r.train_configuration_id = cid ∧
            (pyTruthy gender = true → r.gender = gender))) ∧
        stats.floor_selections = db.user_responses.countP
          (fun r => r.selection_type == "floor" && decide (r.train_configuration_id = cid ∧
            (pyTruthy gender = true → r.gender = gender))) ∧
        ∀ k : String, lookupCount stats.selection_heatmap k =
          (if db.user_responses.countP
              (fun r => heatmapKey r.row r.col == k && decide (r.train_configuration_id = cid ∧
                (pyTruthy gender = true → r.gender = gender))) = 0 then none
           else some (db.user_responses.countP
              (fun r => heatmapKey r.row r.col == k && decide (r.train_configuration_id = cid ∧
                (pyTruthy gender = true → r.gender = gender))))) ) ∧
    get_response_statistics c7Db 1 none =
      .ok { train_configuration_id := 1, total_responses := 3, seat_selections := 2,
            floor_selections := 1, selection_heatmap := [("0,0", 2), ("1,2", 1)] } := by
  constructor
  · intro db cid gender config hfind
    have hpred : ∀ r : UserResponse,
        (r.train_configuration_id == cid &&
          (if pyTruthy gender then r.gender == gender else true)) =
        decide (r.train_configuration_id = cid ∧
          (pyTruthy gender = true → r.gender = gender)) :=
      fun r => statsFilterPred_eq cid gender r
    unfold get_response_statistics
    rw [hfind]
    refine ⟨_, rfl, rfl, ?_, ?_, ?_, ?_⟩
    · dsimp only
      rw [← List.countP_eq_length_filter]
      exact List.countP_congr (fun r _ => by rw [hpred r])
    · dsimp only
      rw [List.countP_filter]
      exact List.countP_congr (fun r _ => by rw [hpred r])
    · dsimp only
      rw [List.countP_filter]
      exact List.countP_congr (fun r _ => by rw [hpred r])
    · dsimp only
      intro k
      have hfold :
          (db.user_responses.filter (fun r =>
            r.train_configuration_id == cid &&
              (if pyTruthy gender then r.gender == gender else true))).foldl
            (fun m r => bumpCount (heatmapKey r.row r.col) m) [] =
          countMap ((db.user_responses.filter (fun r =>
            r.train_configuration_id == cid &&
              (if pyTruthy gender then r.gender == gender else true))).map
            (fun r => heatmapKey r.row r.col)) := by
        unfold countMap
        rw [List.foldl_map]
      rw [hfold, lookupCount_countMap, count_map_eq_countP, List.countP_filter]
      have : ∀ r : UserResponse,
          (heatmapKey r.row r.col == k &&
            (r.train_configuration_id == cid &&
              (if pyTruthy gender then r.gender == gender else true))) =
          (heatmapKey r.row r.col == k && decide (r.train_configuration_id = cid ∧
            (pyTruthy gender = true → r.gender = gender))) := by
        intro r
        rw [hpred r]
      rw [List.countP_congr (fun r _ => by rw [this r])]
  · rfl


/-- Witness for C7 at the example store. -/
theorem compute_statistics_spec_witness :
    findTrainConfiguration c7Db 1 = some c7Config ∧
    ∃ stats, get_response_statistics c7Db 1 none = .ok stats ∧
      stats.train_configuration_id = 1 ∧
      stats.total_responses = c7Db.user_responses.countP
        (fun r => decide (r.train_configuration_id = 1 ∧
          (pyTruthy none = true → r.gender = none))) ∧
      stats.seat_selections = c7Db.user_responses.countP
        (fun r => r.selection_type == "seat" && decide (r.train_configuration_id = 1 ∧
          (pyTruthy none = true → r.gender = none))) ∧
      stats.floor_selections = c7Db.user_responses.countP
        (fun r => r.selection_type == "floor" && decide (r.train_configuration_id = 1 ∧
          (pyTruthy none = true → r.gender = none))) ∧
      ∀ k : String, lookupCount stats.selection_heatmap k =
        (if c7Db.user_responses.countP
            (fun r => heatmapKey r.row r.col == k && decide (r.train_configuration_id = 1 ∧
              (pyTruthy none = true → r.gender = none))) = 0 then none
         else some (c7Db.user_responses.countP
            (fun r => heatmapKey r.row r.col == k && decide (r.train_configuration_id = 1 ∧
              (pyTruthy none = true → r.gender = none))))) :=
  ⟨by decide, compute_statistics_spec.1 c7Db 1 none c7Config (by decide)⟩

/-! ### C5: seat-selection failure modes -/

/-- C5 counterexample: with a negative row and an unknown scenario id, the
pydantic schema check (`row ge=0`) rejects the call with a Validation error
before the scenario lookup, so the call does not fail with NotFound as the
claim requires of every call with an unknown scenario. -/
theorem user_response_404_precedence_counterexample :
    findTrainConfiguration emptyDb 1 = none ∧
    post_user_responses emptyDb c5Req = .error .validation ∧
    post_user_responses emptyDb c5Req ≠ .error .notFound :=
  ⟨rfl, rfl, fun h => absurd (Except.error.inj h) (by decide)⟩

/-- C5 amended: schema-invalid bodies (negative row/col, bad literals) fail
with Validation before anything else; for schema-valid bodies an unknown
scenario gives NotFound, and with the scenario present the call fails with
Validation exactly when `row ≥ height` or `col ≥ width`.  An error result
leaves the store unchanged by construction. -/
theorem user_response_validation (db : Db) (req : UserResponseCreate) :
    (userResponseSchemaValid req = false →
      post_user_responses db req = .error .validation) ∧
    (userResponseSchemaValid req = true →
      findTrainConfiguration db req.train_configuration_id = none →
      post_user_responses db req = .error .notFound) ∧
    (∀ config, userResponseSchemaValid req = true →
      findTrainConfiguration db req.train_configuration_id = some config →
      (post_user_responses db req = .error .validation ↔
        ((config.height : Int) ≤ req.row ∨ (config.width : Int) ≤ req.col))) := by
  refine ⟨?_, ?_, ?_⟩
  · intro h
    simp [post_user_responses, h]
  · intro hv hfind
    simp [post_user_responses, hv, create_user_response, hfind]
  · intro config hv hfind
    have hpipe : post_user_responses db req = create_user_response db req := by
      simp [post_user_responses, hv]
    rw [hpipe]
    unfold create_user_response
    rw [hfind]
    by_cases hb : (config.height : Int) ≤ req.row ∨ (config.width : Int) ≤ req.col
    · have : (decide ((config.height : Int) ≤ req.row) ||
          decide ((config.width : Int) ≤ req.col)) = true := by
        rcases hb with hb | hb <;> simp [hb]
      simp only [ge_iff_le, this, if_true]
      exact ⟨fun _ => hb, fun _ => trivial⟩
    · push_neg at hb
      have : (decide ((config.height : Int) ≤ req.row) ||
          decide ((config.width : Int) ≤ req.col)) = false := by
        simp [not_le.mpr hb.1, not_le.mpr hb.2]
      simp only [ge_iff_le, this, Bool.false_eq_true, if_false]
      constructor
      · intro h
        rcases hm : (if pyTruthy req.user_session_id then
            db.user_responses.find? (userResponseMatches req) else none) with _ | r <;>
          rw [hm] at h <;> exact absurd h (by simp)
      · intro h
        exact absurd h (by simp [not_le.mpr hb.1, not_le.mpr hb.2, not_or])

/-- Witness for C5's amended theorem: schema rejection, NotFound on a valid
body with unknown scenario, and the bounds iff on a 1×1 scenario. -/
theorem user_response_validation_witness :
    post_user_responses emptyDb c5Req = .error .validation ∧
    post_user_responses emptyDb c5ValidReq = .error .notFound ∧
    (post_user_responses c1ConfigDb
        { train_configuration_id := 1, row := 1, col := 0, selection_type := "seat",
          user_session_id := none, user_id := none, gender := none } = .error .validation ↔
      ((1 : Int) ≤ 1 ∨ (1 : Int) ≤ 0)) :=
  ⟨(user_response_validation emptyDb c5Req).1 (by decide),
   (user_response_validation emptyDb c5ValidReq).2.1 (by decide) (by decide),
   (user_response_validation c1ConfigDb _).2.2 tinyConfig (by decide) (by decide)⟩


/-! ### Update-in-place lemmas -/

theorem updateFirst_length {α : Type} (p : α → Bool) (f : α → α) (l : List α) :
    (updateFirst p f l).length = l.length := by
  induction l with
  | nil => rfl
  | cons x xs ih =>
    by_cases h : p x <;> simp [updateFirst, h, ih]

/-- A successful `find?` splits the list; `updateFirst` rewrites exactly the
found element. -/
theorem find?_updateFirst_decomp {α : Type} (p : α → Bool) (f : α → α) (l : List α) (r : α)
    (h : l.find? p = some r) :
    ∃ pre post, l = pre ++ r :: post ∧ (∀ x ∈ pre, p x = false) ∧
      updateFirst p f l = pre ++ f r :: post := by
  induction l with
  | nil => cases h
  | cons x xs ih =>
    by_cases hx : p x
    · rw [List.find?_cons_of_pos _ hx] at h
      obtain rfl := Option.some.inj h
      exact ⟨[], xs, rfl, by simp, by simp [updateFirst, hx]⟩
    · rw [List.find?_cons_of_neg _ hx] at h
      obtain ⟨pre, post, h1, h2, h3⟩ := ih h
      refine ⟨x :: pre, post, by simp [h1], ?_, by simp [updateFirst, hx, h3]⟩
      intro y hy
      rcases List.mem_cons.mp hy with rfl | hy
      · exact Bool.eq_false_iff.mpr hx
      · exact h2 y hy

/-- `updateFirst` with a `q`-preserving rewrite keeps every `countP q`. -/
theorem countP_updateFirst {α : Type} (p q : α → Bool) (f : α → α)
    (hqf : ∀ x, q (f x) = q x) (l : List α) :
    (updateFirst p f l).countP q = l.countP q := by
  induction l with
  | nil => rfl
  | cons x xs ih =>
    by_cases h : p x
    · simp [updateFirst, h, List.countP_cons, hqf]
    · simp [updateFirst, h, List.countP_cons, ih]

/-- On a list with exactly one `p`-match, updating the found element leaves
`f r` as the only match. -/
theorem filter_updateFirst_single {α : Type} (p : α → Bool) (f : α → α) (l : List α) (r : α)
    (hfind : l.find? p = some r) (hcount : l.countP p = 1) (hpf : ∀ x, p (f x) = p x) :
    (updateFirst p f l).filter p = [f r] := by
  obtain ⟨pre, post, h1, h2, h3⟩ := find?_updateFirst_decomp p f l r hfind
  have hpr : p r = true := List.find?_some hfind
  have hprecount : pre.countP p = 0 := by
    rw [List.countP_eq_zero]
    intro a ha
    simp [h2 a ha]
  have hpostcount : post.countP p = 0 := by
    rw [h1, List.countP_append, List.countP_cons_of_pos _ _ hpr, hprecount] at hcount
    omega
  have hprefilter : pre.filter p = [] := by
    rw [List.filter_eq_nil_iff]
    intro a ha
    simp [h2 a ha]
  have hpostfilter : post.filter p = [] := by
    rw [List.filter_eq_nil_iff]
    intro a ha
    have := List.countP_eq_zero.mp hpostcount a ha
    simpa using this
  rw [h3, List.filter_append, hprefilter, List.filter_cons, hpf r, hpr, hpostfilter]
  rfl

/-- Update path of the full submission pipeline: schema-valid body, known
scenario, in-bounds position, truthy session id and an existing match. -/
theorem post_user_responses_update (db : Db) (req : UserResponseCreate) (sid : String)
    (config : TrainConfiguration) (r : UserResponse)
    (hv : userResponseSchemaValid req = true)
    (hsess : req.user_session_id = some sid) (hne : sid ≠ "")
    (hcfg : findTrainConfiguration db req.train_configuration_id = some config)
    (hbounds : ¬((config.height : Int) ≤ req.row ∨ (config.width : Int) ≤ req.col))
    (hfind : db.user_responses.find? (userResponseMatches req) = some r) :
    post_user_responses db req = .ok
      ({ db with user_responses :=
          updateFirst (userResponseMatches req) (updResp req) db.user_responses },
       updResp req r) := by
  have hpipe : post_user_responses db req = create_user_response db req := by
    simp [post_user_responses, hv]
  rw [hpipe]
  unfold create_user_response
  rw [hcfg]
  push_neg at hbounds
  have hb : (decide ((config.height : Int) ≤ req.row) ||
      decide ((config.width : Int) ≤ req.col)) = false := by
    simp [not_le.mpr hbounds.1, not_le.mpr hbounds.2]
  simp only [ge_iff_le, hb, Bool.false_eq_true, if_false]
  have htruthy : pyTruthy req.user_session_id = true := by
    rw [hsess]
    show (!sid.isEmpty) = true
    cases h : sid.isEmpty with
    | false => rfl
    | true => exact absurd ((String.isEmpty_iff sid).mp h) hne
  rw [htruthy]
  simp only [if_true]
  rw [hfind]


/-! ### C10: update path frame -/

/-- C10: when the submission takes the update path, only `row`, `col`,
`selection_type` and `gender` change; `id`, `train_configuration_id`,
`user_session_id`, `user_id` and `created_at` stay, even if the new submission
supplies a different `user_id`, and every other stored row is untouched. -/
theorem seat_update_frame (db : Db) (req : UserResponseCreate) (sid : String)
    (config : TrainConfiguration) (r : UserResponse)
    (hv : userResponseSchemaValid req = true)
    (hsess : req.user_session_id = some sid) (hne : sid ≠ "")
    (hcfg : findTrainConfiguration db req.train_configuration_id = some config)
    (hbounds : ¬((config.height : Int) ≤ req.row ∨ (config.width : Int) ≤ req.col))
    (hfind : db.user_responses.find? (userResponseMatches req) = some r) :
    ∃ db' resp pre post,
      post_user_responses db req = .ok (db', resp) ∧
      db.user_responses = pre ++ r :: post ∧
      db'.user_responses = pre ++ resp :: post ∧
      resp.id = r.id ∧ resp.train_configuration_id = r.train_configuration_id ∧
      resp.user_session_id = r.user_session_id ∧ resp.user_id = r.user_id ∧
      resp.created_at = r.created_at ∧
      resp.row = req.row ∧ resp.col = req.col ∧
      resp.selection_type = req.selection_type ∧ resp.gender = req.gender := by
  obtain ⟨pre, post, hl, hpre, hupd⟩ :=
    find?_updateFirst_decomp (userResponseMatches req) (updResp req) db.user_responses r hfind
  refine ⟨_, updResp req r, pre, post,
    post_user_responses_update db req sid config r hv hsess hne hcfg hbounds hfind,
    hl, ?_, rfl, rfl, rfl, rfl, rfl, rfl, rfl, rfl, rfl⟩
  exact hupd

/-- Witness for C10: updating `c10r` (user "alice", created at 5) from a
submission carrying user "bob" keeps id/session/user/timestamp. -/
theorem seat_update_frame_witness :
    ∃ db' resp pre post,
      post_user_responses c10Db c10Req = .ok (db', resp) ∧
      c10Db.user_responses = pre ++ c10r :: post ∧
      db'.user_responses = pre ++ resp :: post ∧
      resp.id = c10r.id ∧ resp.train_configuration_id = c10r.train_configuration_id ∧
      resp.user_session_id = c10r.user_session_id ∧ resp.user_id = c10r.user_id ∧
      resp.created_at = c10r.created_at ∧
      resp.row = c10Req.row ∧ resp.col = c10Req.col ∧
      resp.selection_type = c10Req.selection_type ∧ resp.gender = c10Req.gender :=
  seat_update_frame c10Db c10Req "s1" tinyConfig c10r (by decide) rfl (by decide)
    (by decide) (by decide) (by decide)


/-! ### C1: session upsert -/

/-- C1 counterexample: the session id `""` is non-null, a stored response for
`(scenario 1, "")` exists, yet a second submission from that session inserts a
new row (Python truthiness treats `""` as absent), so two rows result. -/
theorem seat_upsert_counterexample :
    c1EmptySessDb.user_responses.countP
      (fun x => x.train_configuration_id == 1 && x.user_session_id == some "") = 1 ∧
    (match post_user_responses c1EmptySessDb c1EmptySessReq with
     | .ok (d, _) => d.user_responses.length
     | .error _ => 0) = 2 :=
  ⟨rfl, rfl⟩

/-- Successful submissions either update the matching row in place or append
a new row carrying the submitted values. -/
theorem post_user_responses_ok_shape (db db' : Db) (req : UserResponseCreate)
    (resp : UserResponse) (sid : String)
    (hsess : req.user_session_id = some sid) (hne : sid ≠ "")
    (h : post_user_responses db req = .ok (db', resp)) :
    (∃ r, db.user_responses.find? (userResponseMatches req) = some r ∧
       db'.user_responses =
         updateFirst (userResponseMatches req) (updResp req) db.user_responses ∧
       resp = updResp req r) ∨
    (db.user_responses.find? (userResponseMatches req) = none ∧
       db'.user_responses = db.user_responses ++ [resp] ∧
       resp.train_configuration_id = req.train_configuration_id ∧
       resp.user_session_id = req.user_session_id ∧
       resp.row = req.row ∧ resp.col = req.col ∧
       resp.selection_type = req.selection_type ∧ resp.gender = req.gender) := by
  unfold post_user_responses at h
  cases hv : userResponseSchemaValid req with
  | false => rw [hv] at h; simp at h
  | true =>
    rw [hv] at h
    simp only [eq_self_iff_true, if_true] at h
    unfold create_user_response at h
    cases hcfg : findTrainConfiguration db req.train_configuration_id with
    | none => rw [hcfg] at h; simp at h
    | some config =>
      rw [hcfg] at h
      have htruthy : pyTruthy req.user_session_id = true := by
        rw [hsess]
        show (!sid.isEmpty) = true
        cases hemp : sid.isEmpty with
        | false => rfl
        | true => exact absurd ((String.isEmpty_iff sid).mp hemp) hne
      rw [htruthy] at h
      simp only [eq_self_iff_true, if_true] at h
      split at h
      · exact absurd h (by simp)
      · cases hf : db.user_responses.find? (userResponseMatches req) with
        | some r =>
          rw [hf] at h
          obtain ⟨hdb, hresp⟩ := Prod.mk.inj (Except.ok.inj h)
          exact Or.inl ⟨r, rfl, by rw [← hdb], hresp.symm⟩
        | none =>
          rw [hf] at h
          obtain ⟨hdb, hresp⟩ := Prod.mk.inj (Except.ok.inj h)
          subst hresp
          exact Or.inr ⟨rfl, by rw [← hdb], rfl, rfl, rfl, rfl, rfl, rfl⟩

/-- C1 amended (non-empty session ids; Python truthiness treats `""` like a
missing session id): an existing `(scenario, session)` response is overwritten
in place with no insert, and two successive submissions with the same pair
leave exactly one stored response carrying the second submission's values. -/
theorem seat_upsert_idempotent :
    (∀ (db : Db) (req : UserResponseCreate) (sid : String) (config : TrainConfiguration)
        (r : UserResponse),
      req.user_session_id = some sid → sid ≠ "" →
      userResponseSchemaValid req = true →
      findTrainConfiguration db req.train_configuration_id = some config →
      ¬((config.height : Int) ≤ req.row ∨ (config.width : Int) ≤ req.col) →
      db.user_responses.find? (userResponseMatches req) = some r →
      ∃ db' resp pre post, post_user_responses db req = .ok (db', resp) ∧
        db'.user_responses.length = db.user_responses.length ∧
        db.user_responses = pre ++ r :: post ∧
        db'.user_responses = pre ++ resp :: post ∧
        resp.row = req.row ∧ resp.col = req.col ∧
        resp.selection_type = req.selection_type ∧ resp.gender = req.gender) ∧
    (∀ (db db1 db2 : Db) (req1 req2 : UserResponseCreate) (sid : String)
        (resp1 resp2 : UserResponse),
      req1.train_configuration_id = req2.train_configuration_id →
      req1.user_session_id = some sid → req2.user_session_id = some sid → sid ≠ "" →
      db.user_responses.countP (fun x =>
        x.train_configuration_id == req2.train_configuration_id &&
        x.user_session_id == some sid) ≤ 1 →
      post_user_responses db req1 = .ok (db1, resp1) →
      post_user_responses db1 req2 = .ok (db2, resp2) →
      ∃ u, db2.user_responses.filter (fun x =>
          x.train_configuration_id == req2.train_configuration_id &&
          x.user_session_id == some sid) = [u] ∧
        u.row = req2.row ∧ u.col = req2.col ∧
        u.selection_type = req2.selection_type ∧ u.gender = req2.gender) := by
  constructor
  · intro db req sid config r hsess hne hv hcfg hbounds hfind
    obtain ⟨pre, post, hl, hpre, hupd⟩ :=
      find?_updateFirst_decomp (userResponseMatches req) (updResp req) db.user_responses r hfind
    refine ⟨_, updResp req r, pre, post,
      post_user_responses_update db req sid config r hv hsess hne hcfg hbounds hfind,
      ?_, hl, hupd, rfl, rfl, rfl, rfl⟩
    exact updateFirst_length _ _ _
  · intro db db1 db2 req1 req2 sid resp1 resp2 htc hs1 hs2 hne hcount h1 h2
    have hpeq1 : userResponseMatches req1 = (fun x : UserResponse =>
        x.train_configuration_id == req2.train_configuration_id &&
        x.user_session_id == some sid) := by
      funext x
      unfold userResponseMatches
      rw [htc, hs1]
    have hpeq2 : userResponseMatches req2 = (fun x : UserResponse =>
        x.train_configuration_id == req2.train_configuration_id &&
        x.user_session_id == some sid) := by
      funext x
      unfold userResponseMatches
      rw [hs2]
    have hc1 : db1.user_responses.countP (fun x =>
        x.train_configuration_id == req2.train_configuration_id &&
        x.user_session_id == some sid) = 1 := by
      rcases post_user_responses_ok_shape db db1 req1 resp1 sid hs1 hne h1 with
        ⟨r, hf1, hdb1, hresp1⟩ | ⟨hf1, hdb1, hfa, hfb, _, _, _, _⟩
      · rw [hdb1, hpeq1, countP_updateFirst _
          (fun x : UserResponse => x.train_configuration_id == req2.train_configuration_id &&
            x.user_session_id == some sid) (updResp req1) (fun x => rfl)]
        have hmem := List.mem_of_find?_eq_some hf1
        have hpr := List.find?_some hf1
        rw [hpeq1] at hpr
        have hpos : 0 < db.user_responses.countP (fun x =>
            x.train_configuration_id == req2.train_configuration_id &&
            x.user_session_id == some sid) :=
          List.countP_pos_iff.mpr ⟨r, hmem, hpr⟩
        omega
      · rw [hdb1, List.countP_append]
        have hzero : db.user_responses.countP (fun x =>
            x.train_configuration_id == req2.train_configuration_id &&
            x.user_session_id == some sid) = 0 := by
          rw [List.countP_eq_zero]
          intro a ha
          have h' := List.find?_eq_none.mp hf1 a ha
          rw [hpeq1] at h'
          exact h'
        have hone : List.countP (fun x : UserResponse =>
            x.train_configuration_id == req2.train_configuration_id &&
            x.user_session_id == some sid) [resp1] = 1 := by
          have h1a : resp1.train_configuration_id = req2.train_configuration_id := by
            rw [hfa, htc]
          have h1b : resp1.user_session_id = some sid := by
            rw [hfb, hs1]
          simp [List.countP_cons, h1a, h1b]
        rw [hzero, hone]
    rcases post_user_responses_ok_shape db1 db2 req2 resp2 sid hs2 hne h2 with
      ⟨u0, hf2, hdb2, hresp2⟩ | ⟨hf2, hdb2, _, _, _, _, _, _⟩
    · have hfind2 : db1.user_responses.find? (fun x : UserResponse =>
          x.train_configuration_id == req2.train_configuration_id &&
          x.user_session_id == some sid) = some u0 := by
        rw [← hpeq2]
        exact hf2
      have hfil := filter_updateFirst_single _ (updResp req2) db1.user_responses u0
        hfind2 hc1 (fun x => rfl)
      refine ⟨updResp req2 u0, ?_, rfl, rfl, rfl, rfl⟩
      rw [hdb2, hpeq2]
      exact hfil
    · exfalso
      have hzero : db1.user_responses.countP (fun x =>
          x.train_configuration_id == req2.train_configuration_id &&
          x.user_session_id == some sid) = 0 := by
        rw [List.countP_eq_zero]
        intro a ha
        have h' := List.find?_eq_none.mp hf2 a ha
        rw [hpeq2] at h'
        exact h'
      omega


/-- Witness for C1's amended theorem: two submissions from session "s1"
against the 1×1 scenario leave exactly one stored response with the second
submission's values. -/
theorem seat_upsert_idempotent_witness :
    ∃ u, c1Db2.user_responses.filter (fun x =>
        x.train_configuration_id == c1Req2.train_configuration_id &&
        x.user_session_id == some "s1") = [u] ∧
      u.row = c1Req2.row ∧ u.col = c1Req2.col ∧
      u.selection_type = c1Req2.selection_type ∧ u.gender = c1Req2.gender :=
  seat_upsert_idempotent.2 c1ConfigDb c1Db1 c1Db2 c1Req1 c1Req2 "s1" c1Resp1 c1Resp2
    rfl rfl rfl (by decide) (by decide) (by rfl) (by rfl)


/-! ### C4: reference-counted question deletion -/

/-- C4 counterexample: question 1 is still referenced by a pre-study question,
yet deleting its post-response question deletes the question row (and cascades
the pre-study link), because only other `PostResponseQuestion` rows are
consulted. -/
theorem question_refcount_counterexample :
    c4Db.pre_study_questions.any (fun p => p.question_id == 1) = true ∧
    ∃ db', delete_post_response_question c4Db 1 1 = .ok db' ∧
      db'.questions.any (fun q => q.id == 1) = false ∧
      db'.pre_study_questions = [] :=
  ⟨rfl, ⟨_, rfl, rfl, rfl⟩⟩

/-- C4 amended: deleting a `PostResponseQuestion` deletes the underlying
`Question` (and its tag assignments) iff no *other* `PostResponseQuestion`
references it; `PreStudyQuestion`/`PostStudyQuestion` links are not consulted
and are cascade-deleted with the question when it goes. -/
theorem delete_post_response_question_refcount (db : Db) (config_id prq_id : Nat)
    (prq : PostResponseQuestion)
    (hfind : db.post_response_questions.find?
      (fun p => p.id == prq_id && p.train_configuration_id == config_id) = some prq) :
    ((¬ ∃ p ∈ db.post_response_questions,
        p.question_id = prq.question_id ∧ p.id ≠ prq_id) →
      ∃ db', delete_post_response_question db config_id prq_id = .ok db' ∧
        (∀ q ∈ db'.questions, q.id ≠ prq.question_id) ∧
        (∀ a ∈ db'.question_tag_assignments, a.question_id ≠ prq.question_id)) ∧
    ((∃ p ∈ db.post_response_questions,
        p.question_id = prq.question_id ∧ p.id ≠ prq_id) →
      ∃ db', delete_post_response_question db config_id prq_id = .ok db' ∧
        db'.questions = db.questions ∧
        db'.question_tag_assignments = db.question_tag_assignments) := by
  have hpid : prq.id = prq_id := by
    have h := List.find?_some hfind
    simp only [Bool.and_eq_true, beq_iff_eq] at h
    exact h.1
  have hrow : (deletePostResponseQuestionRow db prq).post_response_questions =
      db.post_response_questions.filter (fun p => p.id != prq.id) := rfl
  constructor
  · intro hno
    have hcond : ((deletePostResponseQuestionRow db prq).post_response_questions.filter
        (fun p => p.question_id == prq.question_id && p.id != prq_id)).isEmpty = true := by
      rw [List.isEmpty_iff, List.filter_eq_nil_iff]
      intro p hp
      rw [hrow] at hp
      obtain ⟨hpmem, _⟩ := List.mem_filter.mp hp
      intro hcontra
      simp only [Bool.and_eq_true, beq_iff_eq, bne_iff_ne] at hcontra
      exact hno ⟨p, hpmem, hcontra.1, hcontra.2⟩
    unfold delete_post_response_question
    rw [hfind]
    dsimp only
    rw [hcond]
    simp only [if_true]
    refine ⟨_, rfl, ?_, ?_⟩
    · intro q hq
      have := List.of_mem_filter hq
      simpa using this
    · intro a ha
      have := List.of_mem_filter ha
      simpa using this
  · rintro ⟨p0, hp0mem, hp0qid, hp0ne⟩
    have hcond : ((deletePostResponseQuestionRow db prq).post_response_questions.filter
        (fun p => p.question_id == prq.question_id && p.id != prq_id)).isEmpty = false := by
      rw [List.isEmpty_eq_false]
      intro hnil
      rw [List.filter_eq_nil_iff] at hnil
      have hp0in : p0 ∈ (deletePostResponseQuestionRow db prq).post_response_questions := by
        rw [hrow]
        refine List.mem_filter.mpr ⟨hp0mem, ?_⟩
        simp [hpid, hp0ne]
      exact hnil p0 hp0in (by simp [hp0qid, hp0ne])
    unfold delete_post_response_question
    rw [hfind]
    dsimp only
    rw [hcond]
    simp only [Bool.false_eq_true, if_false]
    exact ⟨_, rfl, rfl, rfl⟩

/-- Witness for C4's amended theorem: with no other post-response reference
the question and its assignments go; with a second post-response reference
they stay. -/
theorem delete_post_response_question_refcount_witness :
    (∃ db', delete_post_response_question c4Db 1 1 = .ok db' ∧
      (∀ q ∈ db'.questions, q.id ≠ 1) ∧
      (∀ a ∈ db'.question_tag_assignments, a.question_id ≠ 1)) ∧
    (∃ db', delete_post_response_question c4TwoDb 1 1 = .ok db' ∧
      db'.questions = c4TwoDb.questions ∧
      db'.question_tag_assignments = c4TwoDb.question_tag_assignments) :=
  ⟨(delete_post_response_question_refcount c4Db 1 1
      { id := 1, question_id := 1, train_configuration_id := 1, is_required := false,
        free_text_required := false, order := 0, is_default := false }
      (by decide)).1 (by decide),
   (delete_post_response_question_refcount c4TwoDb 1 1
      { id := 1, question_id := 1, train_configuration_id := 1, is_required := false,
        free_text_required := false, order := 0, is_default := false }
      (by decide)).2 (by decide)⟩


/-! ### C2: tag-assignment reconciliation -/

theorem insertNew_mem_spec (tagTable : List QuestionTag) (existingIds : List Nat) (qid : Nat) :
    ∀ (l : List Nat) (nid ord : Nat) (a : QuestionTagAssignment),
      a ∈ insertNewAssignments tagTable existingIds qid nid ord l →
      a.question_id = qid ∧ a.tag_id ∈ l ∧ existingIds.contains a.tag_id = false ∧
      tagTable.any (fun tag => tag.id == a.tag_id) = true := by
  intro l
  induction l with
  | nil =>
    intro nid ord a ha
    simp [insertNewAssignments] at ha
  | cons u rest ih =>
    intro nid ord a ha
    simp only [insertNewAssignments] at ha
    by_cases hcu : existingIds.contains u = true
    · rw [if_pos hcu] at ha
      obtain ⟨h1, h2, h3, h4⟩ := ih _ _ a ha
      exact ⟨h1, List.mem_cons_of_mem _ h2, h3, h4⟩
    · rw [if_neg hcu] at ha
      by_cases htu : tagTable.any (fun tag => tag.id == u) = true
      · rw [if_pos htu] at ha
        rcases List.mem_cons.mp ha with rfl | ha
        · exact ⟨rfl, List.mem_cons_self _ _, Bool.eq_false_iff.mpr hcu, htu⟩
        · obtain ⟨h1, h2, h3, h4⟩ := ih _ _ a ha
          exact ⟨h1, List.mem_cons_of_mem _ h2, h3, h4⟩
      · rw [if_neg htu] at ha
        obtain ⟨h1, h2, h3, h4⟩ := ih _ _ a ha
        exact ⟨h1, List.mem_cons_of_mem _ h2, h3, h4⟩

theorem insertNew_countP (tagTable : List QuestionTag) (existingIds : List Nat)
    (qid t : Nat) :
    ∀ (l : List Nat) (nid ord : Nat),
      (insertNewAssignments tagTable existingIds qid nid ord l).countP
        (fun a => a.tag_id == t) =
      if existingIds.contains t = true ∨ tagTable.any (fun tag => tag.id == t) = false
      then 0 else l.count t := by
  intro l
  induction l with
  | nil =>
    intro nid ord
    simp [insertNewAssignments]
  | cons u rest ih =>
    intro nid ord
    simp only [insertNewAssignments]
    by_cases hcu : existingIds.contains u = true
    · rw [if_pos hcu, ih]
      by_cases het : t = u
      · subst het
        have hmem : t ∈ existingIds := by simpa using hcu
        simp [hmem]
      · rw [List.count_cons_of_ne het]
    · rw [if_neg hcu]
      by_cases htu : tagTable.any (fun tag => tag.id == u) = true
      · rw [if_pos htu]
        by_cases het : t = u
        · subst het
          rw [List.countP_cons_of_pos _ _ (by simp), ih, List.count_cons_self]
          have hmem : t ∉ existingIds := by simpa using hcu
          simp [hmem, htu]
        · rw [List.countP_cons_of_neg _ _ (by simp [Ne.symm het]), ih,
              List.count_cons_of_ne het]
      · rw [if_neg htu, ih]
        by_cases het : t = u
        · subst het
          simp [Bool.eq_false_iff.mpr htu]
        · rw [List.count_cons_of_ne het]

theorem insertNew_order (tagTable : List QuestionTag) (existingIds : List Nat) (qid : Nat) :
    ∀ (l : List Nat), l.Nodup → ∀ (nid ord : Nat) (a : QuestionTagAssignment),
      a ∈ insertNewAssignments tagTable existingIds qid nid ord l →
      a.order = ord + l.indexOf a.tag_id := by
  intro l
  induction l with
  | nil =>
    intro _ nid ord a ha
    simp [insertNewAssignments] at ha
  | cons u rest ih =>
    intro hnd nid ord a ha
    obtain ⟨hu, hrestnd⟩ := List.nodup_cons.mp hnd
    simp only [insertNewAssignments] at ha
    by_cases hcu : existingIds.contains u = true
    · rw [if_pos hcu] at ha
      have hmem := (insertNew_mem_spec tagTable existingIds qid rest _ _ a ha).2.1
      have hne : u ≠ a.tag_id := fun he => hu (he ▸ hmem)
      rw [ih hrestnd _ _ a ha, List.indexOf_cons_ne _ hne]
      omega
    · rw [if_neg hcu] at ha
      by_cases htu : tagTable.any (fun tag => tag.id == u) = true
      · rw [if_pos htu] at ha
        rcases List.mem_cons.mp ha with rfl | ha
        · simp [List.indexOf_cons_self]
        · have hmem := (insertNew_mem_spec tagTable existingIds qid rest _ _ a ha).2.1
          have hne : u ≠ a.tag_id := fun he => hu (he ▸ hmem)
          rw [ih hrestnd _ _ a ha, List.indexOf_cons_ne _ hne]
          omega
      · rw [if_neg htu] at ha
        have hmem := (insertNew_mem_spec tagTable existingIds qid rest _ _ a ha).2.1
        have hne : u ≠ a.tag_id := fun he => hu (he ▸ hmem)
        rw [ih hrestnd _ _ a ha, List.indexOf_cons_ne _ hne]
        omega


/-- Mapping with a function that fixes the matching predicate and acts as the
identity on matches commutes away under `filter`. -/
theorem filter_map_invariant {α : Type} (p : α → Bool) (g : α → α)
    (hg : ∀ a, p (g a) = p a) (hid : ∀ a, p a = true → g a = a) (l : List α) :
    (l.map g).filter p = l.filter p := by
  induction l with
  | nil => rfl
  | cons a rest ih =>
    simp only [List.map_cons, List.filter_cons]
    rw [hg a]
    by_cases h : p a = true
    · rw [if_pos h, if_pos h, hid a h, ih]
    · rw [if_neg h, if_neg h, ih]

/-- Under at-most-one-assignment-per-(question, tag), the number of rows for
`(qid, t)` is 1 or 0 according to membership of `t` in the current tag ids. -/
theorem countP_pair_eq (assignments : List QuestionTagAssignment) (qid t : Nat)
    (hcur : ((assignments.filter (fun a => a.question_id == qid)).map
      (fun a => a.tag_id)).Nodup) :
    assignments.countP (fun a => a.question_id == qid && a.tag_id == t) =
      if t ∈ (assignments.filter (fun a => a.question_id == qid)).map (fun a => a.tag_id)
      then 1 else 0 := by
  have h1 : assignments.countP (fun a => a.question_id == qid && a.tag_id == t) =
      (assignments.filter (fun a => a.question_id == qid)).countP
        (fun a => a.tag_id == t) := by
    rw [List.countP_filter]
    exact List.countP_congr (fun a _ => by
      simp [Bool.and_eq_true, and_comm])
  have h2 := count_map_eq_countP (fun a : QuestionTagAssignment => a.tag_id)
    (assignments.filter (fun a => a.question_id == qid)) t
  rw [h1, ← h2]
  by_cases hm : t ∈ (assignments.filter (fun a => a.question_id == qid)).map
      (fun a => a.tag_id)
  · rw [if_pos hm]
    exact List.count_eq_one_of_mem hcur hm
  · rw [if_neg hm]
    exact List.count_eq_zero.mpr hm

/-- The reorder map of `reconcileTagsPost` touches neither `question_id` nor
`tag_id`. -/
theorem reconcilePostMap_fields (qid : Nat) (tag_ids : List Nat)
    (a : QuestionTagAssignment) :
    ((if a.question_id == qid && tag_ids.contains a.tag_id then
        { a with order := tag_ids.indexOf a.tag_id } else a).question_id = a.question_id) ∧
    ((if a.question_id == qid && tag_ids.contains a.tag_id then
        { a with order := tag_ids.indexOf a.tag_id } else a).tag_id = a.tag_id) := by
  constructor <;> (split <;> rfl)

/-- Frame: rows of other questions are untouched by `reconcileTagsPost`. -/
theorem reconcileTagsPost_frame (assignments : List QuestionTagAssignment)
    (tagTable : List QuestionTag) (qid : Nat) (tag_ids : List Nat) (nid : Nat) :
    (reconcileTagsPost assignments tagTable qid tag_ids nid).filter
        (fun a => a.question_id != qid) =
      assignments.filter (fun a => a.question_id != qid) := by
  unfold reconcileTagsPost
  rw [List.filter_append]
  have hins : (insertNewAssignments tagTable
      ((assignments.filter (fun a => a.question_id == qid)).map (fun a => a.tag_id))
      qid nid 0 tag_ids).filter (fun a => a.question_id != qid) = [] := by
    rw [List.filter_eq_nil_iff]
    intro a ha
    have := (insertNew_mem_spec _ _ _ _ _ _ a ha).1
    simp [this]
  rw [hins, List.append_nil]
  have hfm := filter_map_invariant (fun a : QuestionTagAssignment => a.question_id != qid)
    (fun a : QuestionTagAssignment =>
      if a.question_id == qid && tag_ids.contains a.tag_id then
        { a with order := tag_ids.indexOf a.tag_id } else a)
    (fun a => by
      dsimp only
      rw [(reconcilePostMap_fields qid tag_ids a).1])
    (fun a ha => by
      dsimp only at ha ⊢
      have hne : (a.question_id == qid) = false := by
        simp only [bne_iff_ne, ne_eq] at ha
        simp [ha]
      simp [hne])
    (assignments.filter (fun a => a.question_id != qid || tag_ids.contains a.tag_id))
  rw [hfm]
  rw [List.filter_filter]
  apply List.filter_congr
  intro a _
  by_cases h : (a.question_id != qid) = true <;> simp [h]


/-- Mapping with a predicate-preserving function keeps `countP`. -/
theorem countP_map_pres {α : Type} (p : α → Bool) (g : α → α)
    (hg : ∀ a, p (g a) = p a) (l : List α) :
    (l.map g).countP p = l.countP p := by
  rw [List.countP_map]
  exact List.countP_congr (fun a _ => by
    show (p ∘ g) a = true ↔ p a = true
    rw [Function.comp_apply, hg a])

/-- Per-(question, tag) row counts after `reconcileTagsPost`: exactly one row
for each desired tag that was current or exists in the tag table, none
otherwise. -/
theorem reconcileTagsPost_counts (assignments : List QuestionTagAssignment)
    (tagTable : List QuestionTag) (qid : Nat) (tag_ids : List Nat) (nid : Nat)
    (hnd : tag_ids.Nodup)
    (hcur : ((assignments.filter (fun a => a.question_id == qid)).map
      (fun a => a.tag_id)).Nodup) (t : Nat) :
    (reconcileTagsPost assignments tagTable qid tag_ids nid).countP
        (fun a => a.question_id == qid && a.tag_id == t) =
      if t ∈ tag_ids ∧
        (t ∈ (assignments.filter (fun a => a.question_id == qid)).map (fun a => a.tag_id) ∨
         t ∈ tagTable.map (fun tag => tag.id))
      then 1 else 0 := by
  have hanyt : (tagTable.any (fun tag => tag.id == t) = true) ↔
      t ∈ tagTable.map (fun tag => tag.id) := by
    rw [List.any_eq_true]
    constructor
    · rintro ⟨x, hx, hxe⟩
      exact List.mem_map.mpr ⟨x, hx, by simpa using hxe⟩
    · intro hm
      obtain ⟨x, hx, hxe⟩ := List.mem_map.mp hm
      exact ⟨x, hx, by simpa using hxe⟩
  unfold reconcileTagsPost
  rw [List.countP_append]
  have hre : ((assignments.filter
        (fun a => a.question_id != qid || tag_ids.contains a.tag_id)).map (fun a =>
      if a.question_id == qid && tag_ids.contains a.tag_id then
        { a with order := tag_ids.indexOf a.tag_id } else a)).countP
      (fun a => a.question_id == qid && a.tag_id == t) =
      (assignments.filter
        (fun a => a.question_id != qid || tag_ids.contains a.tag_id)).countP
      (fun a => a.question_id == qid && a.tag_id == t) := by
    apply countP_map_pres
    intro a
    rw [(reconcilePostMap_fields qid tag_ids a).1, (reconcilePostMap_fields qid tag_ids a).2]
  rw [hre, List.countP_filter]
  have hkept : assignments.countP (fun a =>
      (a.question_id == qid && a.tag_id == t) &&
      (a.question_id != qid || tag_ids.contains a.tag_id)) =
      if tag_ids.contains t = true then
        assignments.countP (fun a => a.question_id == qid && a.tag_id == t) else 0 := by
    by_cases hct : tag_ids.contains t = true
    · rw [if_pos hct]
      apply List.countP_congr
      intro a _
      constructor
      · intro h
        exact ((Bool.and_eq_true _ _).mp h).1
      · intro h
        obtain ⟨h1a, h1b⟩ := (Bool.and_eq_true _ _).mp h
        have hat : a.tag_id = t := by simpa using h1b
        refine (Bool.and_eq_true _ _).mpr ⟨h, ?_⟩
        refine (Bool.or_eq_true _ _).mpr (Or.inr ?_)
        rw [hat]
        exact hct
    · rw [if_neg hct, List.countP_eq_zero]
      intro a _ hcontra
      obtain ⟨h1, h2⟩ := (Bool.and_eq_true _ _).mp hcontra
      obtain ⟨h1a, h1b⟩ := (Bool.and_eq_true _ _).mp h1
      have hat : a.tag_id = t := by simpa using h1b
      have haq : a.question_id = qid := by simpa using h1a
      rcases (Bool.or_eq_true _ _).mp h2 with h3 | h3
      · rw [bne_iff_ne] at h3
        exact h3 haq
      · rw [hat] at h3
        exact hct h3
  rw [hkept, countP_pair_eq assignments qid t hcur]
  have hinscong : (insertNewAssignments tagTable
      ((assignments.filter (fun a => a.question_id == qid)).map (fun a => a.tag_id))
      qid nid 0 tag_ids).countP (fun a => a.question_id == qid && a.tag_id == t) =
      (insertNewAssignments tagTable
      ((assignments.filter (fun a => a.question_id == qid)).map (fun a => a.tag_id))
      qid nid 0 tag_ids).countP (fun a => a.tag_id == t) := by
    apply List.countP_congr
    intro a ha
    have hq := (insertNew_mem_spec _ _ _ _ _ _ a ha).1
    simp [hq]
  rw [hinscong, insertNew_countP]
  by_cases m1 : t ∈ tag_ids <;>
    by_cases m2 : t ∈ (assignments.filter (fun a => a.question_id == qid)).map
      (fun a => a.tag_id) <;>
    by_cases m3 : t ∈ tagTable.map (fun tag => tag.id)
  · have c1 : tag_ids.contains t = true := by simpa using m1
    have c2 : ((assignments.filter (fun a => a.question_id == qid)).map
        (fun a => a.tag_id)).contains t = true := by simpa using m2
    simp [c1, c2, m1, m2, m3]
  · have c1 : tag_ids.contains t = true := by simpa using m1
    have c2 : ((assignments.filter (fun a => a.question_id == qid)).map
        (fun a => a.tag_id)).contains t = true := by simpa using m2
    simp [c1, c2, m1, m2, m3]
  · have c1 : tag_ids.contains t = true := by simpa using m1
    have c2 : ((assignments.filter (fun a => a.question_id == qid)).map
        (fun a => a.tag_id)).contains t = false := by simp [m2]
    have c3 : (tagTable.any (fun tag => tag.id == t)) = true := hanyt.mpr m3
    simp [c1, c2, c3, m1, m2, m3, List.count_eq_one_of_mem hnd m1]
  · have c1 : tag_ids.contains t = true := by simpa using m1
    have c2 : ((assignments.filter (fun a => a.question_id == qid)).map
        (fun a => a.tag_id)).contains t = false := by simp [m2]
    have c3 : (tagTable.any (fun tag => tag.id == t)) = false := by
      rcases Bool.eq_false_or_eq_true (tagTable.any (fun tag => tag.id == t)) with hb | hb
      · exact absurd (hanyt.mp hb) m3
      · exact hb
    simp [c1, c2, c3, m1, m2, m3]
  · have c1 : tag_ids.contains t = false := by simp [m1]
    have hc0 : List.count t tag_ids = 0 := List.count_eq_zero.mpr m1
    simp [c1, hc0, m1, m2, m3]
  · have c1 : tag_ids.contains t = false := by simp [m1]
    have hc0 : List.count t tag_ids = 0 := List.count_eq_zero.mpr m1
    simp [c1, hc0, m1, m2, m3]
  · have c1 : tag_ids.contains t = false := by simp [m1]
    have hc0 : List.count t tag_ids = 0 := List.count_eq_zero.mpr m1
    simp [c1, hc0, m1, m2, m3]
  · have c1 : tag_ids.contains t = false := by simp [m1]
    have hc0 : List.count t tag_ids = 0 := List.count_eq_zero.mpr m1
    simp [c1, hc0, m1, m2, m3]

/-- Every assignment of the question after `reconcileTagsPost` carries its
position in the desired list as `order`. -/
theorem reconcileTagsPost_orders (assignments : List QuestionTagAssignment)
    (tagTable : List QuestionTag) (qid : Nat) (tag_ids : List Nat) (nid : Nat)
    (hnd : tag_ids.Nodup) :
    ∀ a ∈ reconcileTagsPost assignments tagTable qid tag_ids nid,
      a.question_id = qid → a.order = tag_ids.indexOf a.tag_id := by
  intro a ha hq
  unfold reconcileTagsPost at ha
  rcases List.mem_append.mp ha with ha | ha
  · obtain ⟨a0, ha0, rfl⟩ := List.mem_map.mp ha
    by_cases hcond : (a0.question_id == qid && tag_ids.contains a0.tag_id) = true
    · simp only [hcond, if_true]
    · exfalso
      rw [(reconcilePostMap_fields qid tag_ids a0).1] at hq
      have hkeep := List.of_mem_filter ha0
      have hqb : (a0.question_id == qid) = true := by simpa using hq
      have hnotin : (tag_ids.contains a0.tag_id) = false := by
        rcases Bool.eq_false_or_eq_true (tag_ids.contains a0.tag_id) with hb | hb
        · refine absurd ?_ hcond
          rw [hqb, hb]
          rfl
        · exact hb
      rw [Bool.or_eq_true] at hkeep
      rcases hkeep with hk | hk
      · simp [hqb] at hk
        exact hk (by simpa using hqb)
      · rw [hnotin] at hk
        cases hk
  · have := insertNew_order tagTable
      ((assignments.filter (fun a => a.question_id == qid)).map (fun a => a.tag_id))
      qid tag_ids hnd nid 0 a ha
    simpa using this


/-- The pre-study loop accumulates exactly the shared insertion list. -/
theorem preLoop_inserted (tagTable : List QuestionTag) (currentIds : List Nat) (qid : Nat) :
    ∀ (l : List Nat) (kept inserted : List QuestionTagAssignment) (nid ord : Nat),
      (preReconcileLoop tagTable currentIds qid kept inserted nid ord l).2 =
        inserted ++ insertNewAssignments tagTable currentIds qid nid ord l := by
  intro l
  induction l with
  | nil =>
    intro kept inserted nid ord
    simp [preReconcileLoop, insertNewAssignments]
  | cons u rest ih =>
    intro kept inserted nid ord
    simp only [preReconcileLoop, insertNewAssignments]
    by_cases hcu : currentIds.contains u = true
    · rw [if_neg (by rw [hcu]; decide), if_pos hcu, ih]
    · have hcf : currentIds.contains u = false := Bool.eq_false_iff.mpr hcu
      rw [if_pos (by rw [hcf]; decide), if_neg hcu]
      by_cases htu : tagTable.any (fun tag => tag.id == u) = true
      · rw [if_pos htu, if_pos htu, ih, List.append_assoc]
        rfl
      · rw [if_neg htu, if_neg htu, ih]

/-- `setFirstTagOrder` keeps any count that ignores `order`. -/
theorem countP_setFirstTagOrder (qid t ord : Nat) (q : QuestionTagAssignment → Bool)
    (hq : ∀ a, q { a with order := ord } = q a) :
    ∀ kept : List QuestionTagAssignment,
      (setFirstTagOrder qid t ord kept).countP q = kept.countP q := by
  intro kept
  induction kept with
  | nil => rfl
  | cons a rest ih =>
    simp only [setFirstTagOrder]
    by_cases hpa : (a.question_id == qid && a.tag_id == t) = true
    · rw [if_pos hpa, List.countP_cons, List.countP_cons, hq a]
    · rw [if_neg hpa, List.countP_cons, List.countP_cons, ih]

/-- With at most one row per `(qid, t)`, updating the first match equals
updating every match. -/
theorem setFirstTagOrder_eq_map (qid t ord : Nat) :
    ∀ kept : List QuestionTagAssignment,
      kept.countP (fun a => a.question_id == qid && a.tag_id == t) ≤ 1 →
      setFirstTagOrder qid t ord kept =
        kept.map (fun a => if a.question_id == qid && a.tag_id == t
          then { a with order := ord } else a) := by
  intro kept
  induction kept with
  | nil => intro _; rfl
  | cons a rest ih =>
    intro hc
    simp only [setFirstTagOrder, List.map_cons]
    by_cases hpa : (a.question_id == qid && a.tag_id == t) = true
    · rw [if_pos hpa, if_pos hpa]
      rw [List.countP_cons_of_pos
        (fun a => a.question_id == qid && a.tag_id == t) rest hpa] at hc
      have h0 : rest.countP (fun a => a.question_id == qid && a.tag_id == t) = 0 := by
        omega
      have hrest : rest.map (fun a => if a.question_id == qid && a.tag_id == t
          then { a with order := ord } else a) = rest := by
        refine (List.map_congr_left ?_).trans (List.map_id rest)
        intro x hx
        have hnp := List.countP_eq_zero.mp h0 x hx
        simp only [Bool.not_eq_true] at hnp
        rw [if_neg (by simp [hnp])]
        rfl
      rw [hrest]
    · rw [if_neg hpa, if_neg hpa]
      rw [List.countP_cons_of_neg
        (fun a => a.question_id == qid && a.tag_id == t) rest (by simpa using hpa)] at hc
      rw [ih hc]


/-- One `setFirst` step composed with the remaining-loop map equals the
whole-list map, when the processed tag is current. -/
theorem preStepPointwise (qid u ord : Nat) (rest currentIds : List Nat)
    (hu : u ∉ rest) (hcu : currentIds.contains u = true) (a : QuestionTagAssignment) :
    (fun b : QuestionTagAssignment =>
      if b.question_id == qid && rest.contains b.tag_id && currentIds.contains b.tag_id
      then { b with order := (ord + 1) + rest.indexOf b.tag_id } else b)
    ((fun b : QuestionTagAssignment =>
      if b.question_id == qid && b.tag_id == u then { b with order := ord } else b) a) =
    (if a.question_id == qid && (u :: rest).contains a.tag_id &&
        currentIds.contains a.tag_id
      then { a with order := ord + (u :: rest).indexOf a.tag_id } else a) := by
  dsimp only
  by_cases hq : (a.question_id == qid) = true
  · by_cases he : a.tag_id = u
    · have hcum : u ∈ currentIds := by simpa using hcu
      simp [hq, he, hu, hcum, List.contains_cons, List.indexOf_cons_self]
    · have heb : (a.tag_id == u) = false := by simpa using he
      have hidx : (u :: rest).indexOf a.tag_id = rest.indexOf a.tag_id + 1 :=
        List.indexOf_cons_ne _ (fun hh => he hh.symm)
      by_cases hcr : a.tag_id ∈ rest <;>
        by_cases hcc : a.tag_id ∈ currentIds <;>
        simp [hq, he, heb, hcr, hcc, List.contains_cons, hidx, Nat.add_assoc,
          Nat.add_comm, Nat.add_left_comm]
  · simp [hq]

/-- Skipping a non-current tag only shifts the order base. -/
theorem preStepPointwiseSkip (qid u ord : Nat) (rest currentIds : List Nat)
    (hcu : currentIds.contains u = false) (a : QuestionTagAssignment) :
    (if a.question_id == qid && rest.contains a.tag_id && currentIds.contains a.tag_id
      then { a with order := (ord + 1) + rest.indexOf a.tag_id } else a) =
    (if a.question_id == qid && (u :: rest).contains a.tag_id &&
        currentIds.contains a.tag_id
      then { a with order := ord + (u :: rest).indexOf a.tag_id } else a) := by
  by_cases hq : (a.question_id == qid) = true
  · by_cases he : a.tag_id = u
    · have hcum : u ∉ currentIds := by simpa using hcu
      simp [he, hcum]
    · have heb : (a.tag_id == u) = false := by simpa using he
      have hidx : (u :: rest).indexOf a.tag_id = rest.indexOf a.tag_id + 1 :=
        List.indexOf_cons_ne _ (fun hh => he hh.symm)
      by_cases hcr : a.tag_id ∈ rest <;>
        by_cases hcc : a.tag_id ∈ currentIds <;>
        simp [hq, he, heb, hcr, hcc, List.contains_cons, hidx, Nat.add_assoc,
          Nat.add_comm, Nat.add_left_comm]
  · simp [hq]

/-- The kept list after the pre-study loop: every current desired tag's
assignment gets its position as order, all at once. -/
theorem preLoop_kept (tagTable : List QuestionTag) (currentIds : List Nat) (qid : Nat) :
    ∀ (l : List Nat), l.Nodup →
      ∀ (kept inserted : List QuestionTagAssignment) (nid ord : Nat),
      (∀ t, kept.countP (fun a => a.question_id == qid && a.tag_id == t) ≤ 1) →
      (preReconcileLoop tagTable currentIds qid kept inserted nid ord l).1 =
        kept.map (fun a =>
          if a.question_id == qid && l.contains a.tag_id && currentIds.contains a.tag_id
          then { a with order := ord + l.indexOf a.tag_id } else a) := by
  intro l
  induction l with
  | nil =>
    intro _ kept inserted nid ord _
    simp only [preReconcileLoop]
    refine ((List.map_congr_left ?_).trans (List.map_id kept)).symm
    intro x _
    rw [if_neg (by simp)]
    rfl
  | cons u rest ih =>
    intro hnd kept inserted nid ord hcount
    obtain ⟨hu, hrestnd⟩ := List.nodup_cons.mp hnd
    simp only [preReconcileLoop]
    by_cases hcu : currentIds.contains u = true
    · rw [if_neg (by rw [hcu]; decide)]
      rw [setFirstTagOrder_eq_map qid u ord kept (hcount u)]
      rw [ih hrestnd _ inserted nid (ord + 1) (fun t => by
        rw [countP_map_pres _ _ (fun a => by
          by_cases hb : (a.question_id == qid && a.tag_id == u) = true
          · rw [if_pos hb]
          · rw [if_neg hb])]
        exact hcount t)]
      rw [List.map_map]
      exact List.map_congr_left
        (fun a _ => preStepPointwise qid u ord rest currentIds hu hcu a)
    · have hcf : currentIds.contains u = false := Bool.eq_false_iff.mpr hcu
      rw [if_pos (by rw [hcf]; decide)]
      by_cases htu : tagTable.any (fun tag => tag.id == u) = true
      · rw [if_pos htu]
        rw [ih hrestnd kept _ (nid + 1) (ord + 1) hcount]
        exact List.map_congr_left
          (fun a _ => preStepPointwiseSkip qid u ord rest currentIds hcf a)
      · rw [if_neg htu]
        rw [ih hrestnd kept inserted nid (ord + 1) hcount]
        exact List.map_congr_left
          (fun a _ => preStepPointwiseSkip qid u ord rest currentIds hcf a)


/-- Under duplicate-free desired lists and the per-(question, tag) uniqueness
invariant, both reconciliation paths compute the same table. -/
theorem reconcileTagsPre_eq_post (assignments : List QuestionTagAssignment)
    (tagTable : List QuestionTag) (qid : Nat) (tag_ids : List Nat) (nid : Nat)
    (hnd : tag_ids.Nodup)
    (hcur : ((assignments.filter (fun a => a.question_id == qid)).map
      (fun a => a.tag_id)).Nodup) :
    reconcileTagsPre assignments tagTable qid tag_ids nid =
      reconcileTagsPost assignments tagTable qid tag_ids nid := by
  have hkcount : ∀ t,
      (assignments.filter
        (fun a => a.question_id != qid || tag_ids.contains a.tag_id)).countP
        (fun a => a.question_id == qid && a.tag_id == t) ≤ 1 := by
    intro t
    have h1 := List.Sublist.countP_le
      (p := fun a => a.question_id == qid && a.tag_id == t)
      (List.filter_sublist (l := assignments)
        (p := fun a => a.question_id != qid || tag_ids.contains a.tag_id))
    have h2 := countP_pair_eq assignments qid t hcur
    rw [h2] at h1
    split at h1 <;> omega
  simp only [reconcileTagsPre, reconcileTagsPost]
  rw [preLoop_inserted, preLoop_kept _ _ _ tag_ids hnd _ [] nid 0 hkcount,
    List.nil_append]
  congr 1
  apply List.map_congr_left
  intro a ha
  by_cases hq : (a.question_id == qid) = true
  · have haq : a.question_id = qid := by simpa using hq
    have hkeep := List.of_mem_filter ha
    have hin : tag_ids.contains a.tag_id = true := by
      rcases (Bool.or_eq_true _ _).mp hkeep with hk | hk
      · rw [bne_iff_ne] at hk
        exact absurd haq hk
      · exact hk
    have hmemassign : a ∈ assignments := List.mem_of_mem_filter ha
    have hincur :
        ((assignments.filter (fun b => b.question_id == qid)).map
          (fun b => b.tag_id)).contains a.tag_id = true := by
      have : a ∈ assignments.filter (fun b => b.question_id == qid) :=
        List.mem_filter.mpr ⟨hmemassign, hq⟩
      have hm : a.tag_id ∈ (assignments.filter (fun b => b.question_id == qid)).map
          (fun b => b.tag_id) := List.mem_map.mpr ⟨a, this, rfl⟩
      simpa using hm
    rw [if_pos (by rw [hq, hin, hincur]; rfl), if_pos (by rw [hq, hin]; rfl)]
    have : 0 + tag_ids.indexOf a.tag_id = tag_ids.indexOf a.tag_id := Nat.zero_add _
    rw [this]
  · have hqf : (a.question_id == qid) = false := Bool.eq_false_iff.mpr hq
    rw [if_neg (by rw [hqf]; simp), if_neg (by rw [hqf]; simp)]


/-- C2 counterexample: a desired list with a duplicated new tag id makes both
reconciliation paths insert two assignment rows for the same (question, tag)
pair, violating the anti-duplicate part of the claim. -/
theorem tag_reconciliation_counterexample :
    (reconcileTagsPost [] c2Table 1 [5, 5] 10).countP
      (fun a => a.question_id == 1 && a.tag_id == 5) = 2 ∧
    (reconcileTagsPre [] c2Table 1 [5, 5] 10).countP
      (fun a => a.question_id == 1 && a.tag_id == 5) = 2 :=
  ⟨rfl, rfl⟩

/-- C2 amended (desired tag-id lists without duplicates, and the
per-(question, tag) uniqueness invariant on the current table): both
reconciliation paths agree; rows of other questions are untouched; for each
tag there is exactly one row iff it is desired and either currently assigned
or present in the tag table (unknown tag ids are skipped silently, removed
tags deleted, new tags inserted, no duplicate pairs); and every row of the
question carries its position in the desired list as `order`. -/
theorem tag_reconciliation (assignments : List QuestionTagAssignment)
    (tagTable : List QuestionTag) (qid : Nat) (tag_ids : List Nat) (nid : Nat)
    (hnd : tag_ids.Nodup)
    (hcur : ((assignments.filter (fun a => a.question_id == qid)).map
      (fun a => a.tag_id)).Nodup) :
    reconcileTagsPre assignments tagTable qid tag_ids nid =
      reconcileTagsPost assignments tagTable qid tag_ids nid ∧
    (reconcileTagsPost assignments tagTable qid tag_ids nid).filter
        (fun a => a.question_id != qid) =
      assignments.filter (fun a => a.question_id != qid) ∧
    (∀ t, (reconcileTagsPost assignments tagTable qid tag_ids nid).countP
        (fun a => a.question_id == qid && a.tag_id == t) =
      if t ∈ tag_ids ∧
        (t ∈ (assignments.filter (fun a => a.question_id == qid)).map (fun a => a.tag_id) ∨
         t ∈ tagTable.map (fun tag => tag.id))
      then 1 else 0) ∧
    (∀ a ∈ reconcileTagsPost assignments tagTable qid tag_ids nid,
      a.question_id = qid → a.order = tag_ids.indexOf a.tag_id) :=
  ⟨reconcileTagsPre_eq_post assignments tagTable qid tag_ids nid hnd hcur,
   reconcileTagsPost_frame assignments tagTable qid tag_ids nid,
   fun t => reconcileTagsPost_counts assignments tagTable qid tag_ids nid hnd hcur t,
   reconcileTagsPost_orders assignments tagTable qid tag_ids nid hnd⟩

/-- Witness for C2's amended theorem: question 1 goes from tags `[7]` to
`[7, 5, 9]` where 9 does not exist; question 2's row is untouched. -/
theorem tag_reconciliation_witness :
    reconcileTagsPre c2Assignments c2Table 1 [7, 5, 9] 10 =
      reconcileTagsPost c2Assignments c2Table 1 [7, 5, 9] 10 ∧
    (reconcileTagsPost c2Assignments c2Table 1 [7, 5, 9] 10).filter
        (fun a => a.question_id != 1) =
      c2Assignments.filter (fun a => a.question_id != 1) ∧
    (∀ t, (reconcileTagsPost c2Assignments c2Table 1 [7, 5, 9] 10).countP
        (fun a => a.question_id == 1 && a.tag_id == t) =
      if t ∈ [7, 5, 9] ∧
        (t ∈ (c2Assignments.filter (fun a => a.question_id == 1)).map (fun a => a.tag_id) ∨
         t ∈ c2Table.map (fun tag => tag.id))
      then 1 else 0) ∧
    (∀ a ∈ reconcileTagsPost c2Assignments c2Table 1 [7, 5, 9] 10,
      a.question_id = 1 → a.order = List.indexOf a.tag_id [7, 5, 9]) :=
  tag_reconciliation c2Assignments c2Table 1 [7, 5, 9] 10 (by decide) (by decide)

/-! ### C8: tag statistics -/

/-- Descending insertion permutes consing. -/
lemma insertTagStatDesc_perm (x : TagStatisticsResponse) (l : List TagStatisticsResponse) :
    (insertTagStatDesc x l).Perm (x :: l) := by
  induction l with
  | nil => simp [insertTagStatDesc]
  | cons y ys ih =>
    by_cases hc : y.selection_count < x.selection_count
    · simp only [insertTagStatDesc, if_pos hc]
      exact List.Perm.refl _
    · simp only [insertTagStatDesc, if_neg hc]
      exact (ih.cons y).trans (List.Perm.swap x y ys)

/-- Folding descending insertion over a list permutes appending it. -/
lemma sortTagStatsDesc_perm_aux (l acc : List TagStatisticsResponse) :
    (l.foldl (fun acc x => insertTagStatDesc x acc) acc).Perm (acc ++ l) := by
  induction l generalizing acc with
  | nil => simp
  | cons x xs ih =>
    simp only [List.foldl_cons]
    refine (ih (insertTagStatDesc x acc)).trans ?_
    refine (((insertTagStatDesc_perm x acc).append_right xs).trans ?_)
    exact List.perm_middle.symm

/-- The descending sort is a permutation of its input. -/
lemma sortTagStatsDesc_perm (l : List TagStatisticsResponse) :
    (sortTagStatsDesc l).Perm l := by
  have h := sortTagStatsDesc_perm_aux l []
  simpa [sortTagStatsDesc] using h

/-- Members of a descending insertion. -/
lemma mem_insertTagStatDesc {x z : TagStatisticsResponse} {l : List TagStatisticsResponse}
    (h : z ∈ insertTagStatDesc x l) : z = x ∨ z ∈ l := by
  have h2 := (insertTagStatDesc_perm x l).mem_iff.mp h
  simpa using h2

/-- Descending insertion preserves descending-count order. -/
lemma insertTagStatDesc_pairwise (x : TagStatisticsResponse) (l : List TagStatisticsResponse)
    (h : l.Pairwise (fun a b => b.selection_count ≤ a.selection_count)) :
    (insertTagStatDesc x l).Pairwise (fun a b => b.selection_count ≤ a.selection_count) := by
  induction l with
  | nil => simp [insertTagStatDesc]
  | cons y ys ih =>
    rw [List.pairwise_cons] at h
    obtain ⟨hy, hys⟩ := h
    by_cases hc : y.selection_count < x.selection_count
    · simp only [insertTagStatDesc, if_pos hc]
      refine List.Pairwise.cons ?_ (List.Pairwise.cons hy hys)
      intro z hz
      rcases List.mem_cons.mp hz with rfl | hz2
      · exact Nat.le_of_lt hc
      · exact Nat.le_trans (hy z hz2) (Nat.le_of_lt hc)
    · simp only [insertTagStatDesc, if_neg hc]
      refine List.Pairwise.cons ?_ (ih hys)
      intro z hz
      rcases mem_insertTagStatDesc hz with rfl | hz2
      · exact Nat.le_of_not_lt hc
      · exact hy z hz2

/-- Folding descending insertion yields a descending-count list. -/
lemma sortTagStatsDesc_pairwise_aux (l acc : List TagStatisticsResponse)
    (hacc : acc.Pairwise (fun a b => b.selection_count ≤ a.selection_count)) :
    (l.foldl (fun acc x => insertTagStatDesc x acc) acc).Pairwise
      (fun a b => b.selection_count ≤ a.selection_count) := by
  induction l generalizing acc with
  | nil => simpa using hacc
  | cons x xs ih =>
    simp only [List.foldl_cons]
    exact ih _ (insertTagStatDesc_pairwise x acc hacc)

/-- The descending sort is sorted by descending selection count. -/
lemma sortTagStatsDesc_pairwise (l : List TagStatisticsResponse) :
    (sortTagStatsDesc l).Pairwise (fun a b => b.selection_count ≤ a.selection_count) :=
  sortTagStatsDesc_pairwise_aux l [] List.Pairwise.nil

/-- Keys after a bump: unchanged when the key is present, appended otherwise. -/
lemma bumpCount_keys {κ : Type} [BEq κ] [LawfulBEq κ] (k : κ) (m : List (κ × Nat)) :
    (bumpCount k m).map Prod.fst =
      if k ∈ m.map Prod.fst then m.map Prod.fst else m.map Prod.fst ++ [k] := by
  induction m with
  | nil => simp [bumpCount]
  | cons p rest ih =>
    obtain ⟨k0, c⟩ := p
    by_cases hb : k0 = k
    · subst hb
      simp [bumpCount]
    · have hb2 : (k0 == k) = false := by simp [hb]
      simp only [bumpCount, hb2, Bool.false_eq_true, if_false, List.map_cons, ih]
      by_cases hm : k ∈ rest.map Prod.fst
      · simp [hm, Ne.symm hb]
      · simp [hm, Ne.symm hb]

/-- Folding bumps keeps the key list duplicate-free. -/
lemma countMap_keys_nodup_aux {κ : Type} [BEq κ] [LawfulBEq κ] (l : List κ)
    (acc : List (κ × Nat)) (hacc : (acc.map Prod.fst).Nodup) :
    ((l.foldl (fun m x => bumpCount x m) acc).map Prod.fst).Nodup := by
  induction l generalizing acc with
  | nil => simpa using hacc
  | cons x xs ih =>
    simp only [List.foldl_cons]
    refine ih _ ?_
    rw [bumpCount_keys]
    by_cases hm : x ∈ acc.map Prod.fst
    · rw [if_pos hm]
      exact hacc
    · rw [if_neg hm]
      exact (List.perm_append_singleton x _).nodup_iff.mpr (List.nodup_cons.mpr ⟨hm, hacc⟩)

/-- The counter built from a key list has duplicate-free keys. -/
lemma countMap_keys_nodup {κ : Type} [BEq κ] [LawfulBEq κ] (l : List κ) :
    ((countMap l).map Prod.fst).Nodup :=
  countMap_keys_nodup_aux l [] (by simp)

/-- A lookup succeeds exactly on the stored keys. -/
lemma lookupCount_isSome_iff {κ : Type} [BEq κ] [LawfulBEq κ] (m : List (κ × Nat)) (k : κ) :
    (lookupCount m k).isSome = true ↔ k ∈ m.map Prod.fst := by
  induction m with
  | nil => simp [lookupCount]
  | cons p rest ih =>
    obtain ⟨k0, c0⟩ := p
    by_cases hb : k0 = k
    · subst hb
      simp [lookupCount, List.find?_cons]
    · have hb2 : (k0 == k) = false := by simp [hb]
      simp only [lookupCount, List.find?_cons, hb2, List.map_cons, List.mem_cons] at ih ⊢
      rw [ih]
      simp [Ne.symm hb]

/-- A key is stored in `countMap l` exactly when it occurs in `l`. -/
lemma countMap_keys_mem {κ : Type} [BEq κ] [LawfulBEq κ] (l : List κ) (k : κ) :
    k ∈ (countMap l).map Prod.fst ↔ k ∈ l := by
  rw [← lookupCount_isSome_iff, lookupCount_countMap]
  by_cases h : l.count k = 0
  · rw [if_pos h]
    simpa using List.count_eq_zero.mp h
  · rw [if_neg h]
    simpa using List.count_pos_iff.mp (Nat.pos_of_ne_zero h)

/-- With duplicate-free keys, a stored pair is exactly what lookup returns. -/
lemma mem_counter_iff {κ : Type} [BEq κ] [LawfulBEq κ] {m : List (κ × Nat)}
    (hnd : (m.map Prod.fst).Nodup) (k : κ) (c : Nat) :
    (k, c) ∈ m ↔ lookupCount m k = some c := by
  induction m with
  | nil => simp [lookupCount]
  | cons p rest ih =>
    obtain ⟨k0, c0⟩ := p
    simp only [List.map_cons, List.nodup_cons] at hnd
    obtain ⟨hk0, hrest⟩ := hnd
    by_cases hk : k0 = k
    · subst hk
      have hl : lookupCount ((k0, c0) :: rest) k0 = some c0 := by
        simp [lookupCount, List.find?_cons]
      rw [hl]
      constructor
      · intro h
        rcases List.mem_cons.mp h with h1 | h2
        · injection h1 with h1a h1b
          rw [h1b]
        · exact absurd (List.mem_map.mpr ⟨(k0, c), h2, rfl⟩) hk0
      · intro h
        injection h with hc
        rw [hc]
        exact List.mem_cons_self _ _
    · have hb : (k0 == k) = false := by simp [hk]
      simp only [lookupCount, List.find?_cons, hb] at ih ⊢
      rw [← ih hrest]
      simp [List.mem_cons, Prod.ext_iff, Ne.symm hk]

/-- Counting a conjunction with a disjunction of pointwise-exclusive tests
splits into a sum. -/
lemma countP_or_disjoint (rts : List QuestionResponseTag)
    (p a b : QuestionResponseTag → Bool)
    (hdisj : ∀ rt ∈ rts, ¬(a rt = true ∧ b rt = true)) :
    rts.countP (fun rt => p rt && (a rt || b rt)) =
      rts.countP (fun rt => p rt && a rt) + rts.countP (fun rt => p rt && b rt) := by
  induction rts with
  | nil => simp
  | cons rt rest ih =>
    have hrest : ∀ r ∈ rest, ¬(a r = true ∧ b r = true) :=
      fun r hr => hdisj r (List.mem_cons_of_mem rt hr)
    have hd := hdisj rt (List.mem_cons_self rt rest)
    rw [List.countP_cons, List.countP_cons, List.countP_cons, ih hrest]
    cases hp : p rt <;> cases ha : a rt <;> cases hb : b rt <;> simp_all <;> omega

/-- Joining each response with its tag rows and counting equals counting tag
rows whose response occurs, when response ids are duplicate-free. -/
lemma countP_flatMap_join (rts : List QuestionResponseTag)
    (l : List QuestionResponse) (p : QuestionResponseTag → Bool)
    (hnd : (l.map (fun qr => qr.id)).Nodup) :
    (l.flatMap (fun qr =>
        rts.filter (fun rt => rt.question_response_id == qr.id))).countP p =
      rts.countP (fun rt => p rt &&
        l.any (fun qr => qr.id == rt.question_response_id)) := by
  induction l with
  | nil => simp
  | cons qr rest ih =>
    simp only [List.map_cons, List.nodup_cons] at hnd
    obtain ⟨hqr, hrest⟩ := hnd
    rw [List.flatMap_cons, List.countP_append, List.countP_filter, ih hrest]
    have hsplit := countP_or_disjoint rts p
      (fun rt => qr.id == rt.question_response_id)
      (fun rt => rest.any (fun qr2 => qr2.id == rt.question_response_id))
      (by
        intro rt _ hcontra
        obtain ⟨h1, h2⟩ := hcontra
        rw [List.any_eq_true] at h2
        obtain ⟨q2, hq2, hq2e⟩ := h2
        simp only [beq_iff_eq] at h1 hq2e
        exact hqr (List.mem_map.mpr ⟨q2, hq2, by rw [hq2e, ← h1]⟩))
    have hany : (rts.countP (fun rt => p rt &&
        (qr :: rest).any (fun qr2 => qr2.id == rt.question_response_id))) =
        rts.countP (fun rt => p rt &&
          ((fun rt => qr.id == rt.question_response_id) rt ||
           (fun rt => rest.any (fun qr2 => qr2.id == rt.question_response_id)) rt)) := by
      apply List.countP_congr
      intro rt _
      simp [List.any_cons]
    rw [hany, hsplit]
    have hfirst : rts.countP (fun rt => p rt && (rt.question_response_id == qr.id)) =
        rts.countP (fun rt => p rt && (qr.id == rt.question_response_id)) := by
      apply List.countP_congr
      intro rt _
      simp only [Bool.and_eq_true, beq_iff_eq]
      exact and_congr_right (fun _ => eq_comm)
    rw [hfirst]

/-- The code-side count of a tag over the joined selected-tag rows equals the
spec-side selection count, under duplicate-free response ids. -/
lemma selected_count_eq_spec (db : Db) (prq_id t : Nat)
    (hnd : (db.question_responses.map (fun qr => qr.id)).Nodup) :
    (tagSelectionRows db prq_id).countP
      (fun rt => rt.tag_id == t) = specSelectionCount db prq_id t := by
  have hnd2 : ((db.question_responses.filter
      (fun qr => qr.post_response_question_id == prq_id)).map
      (fun qr => qr.id)).Nodup :=
    hnd.sublist ((List.filter_sublist _).map _)
  unfold tagSelectionRows
  rw [countP_flatMap_join _ _ _ hnd2]
  unfold specSelectionCount
  apply List.countP_congr
  intro rt _
  rw [List.any_filter]

/-- Mapping over a filterMap whose function always succeeds on the list. -/
lemma filterMap_map_of_forall_some {α β γ : Type} (F : α → Option β) (g : β → γ)
    (f : α → γ) (l : List α) (h : ∀ x ∈ l, ∃ y, F x = some y ∧ g y = f x) :
    (l.filterMap F).map g = l.map f := by
  induction l with
  | nil => simp
  | cons x xs ih =>
    obtain ⟨y, hy, hgy⟩ := h x (List.mem_cons_self x xs)
    rw [List.filterMap_cons_some hy, List.map_cons, List.map_cons, hgy,
      ih (fun z hz => h z (List.mem_cons_of_mem x hz))]

/-- The tag counter is the counter of the selected tag-id list. -/
lemma tagSelectionCounts_eq_countMap (db : Db) (prq_id : Nat) :
    tagSelectionCounts db prq_id =
      countMap ((tagSelectionRows db prq_id).map (fun rt => rt.tag_id)) := by
  unfold tagSelectionCounts countMap
  rw [List.foldl_map]

/-- Selected tag rows are rows of the `question_response_tags` table. -/
lemma mem_tagSelectionRows_sub {db : Db} {prq_id : Nat} {rt : QuestionResponseTag}
    (h : rt ∈ tagSelectionRows db prq_id) : rt ∈ db.question_response_tags := by
  unfold tagSelectionRows at h
  obtain ⟨qr, _, hrt⟩ := List.mem_flatMap.mp h
  exact List.mem_of_mem_filter hrt

/-- A produced statistics entry carries the counter pair's key and count. -/
lemma tagStatEntry_fields (tags : List QuestionTag) (tc : Nat × Nat)
    (e : TagStatisticsResponse) (h : tagStatEntry tags tc = some e) :
    e.tag_id = tc.1 ∧ e.selection_count = tc.2 := by
  unfold tagStatEntry at h
  cases hf : tags.find? (fun t => t.id == tc.1) with
  | none =>
    rw [hf] at h
    exact Option.noConfusion h
  | some tag0 =>
    rw [hf] at h
    injection h with h2
    rw [← h2]
    exact ⟨rfl, rfl⟩

/-- When the counter key names a stored tag, the statistics entry exists and
carries the key and count. -/
lemma tagStatEntry_isSome (tags : List QuestionTag) (tc : Nat × Nat)
    (h : ∃ tag ∈ tags, tag.id = tc.1) :
    ∃ y, tagStatEntry tags tc = some y ∧ y.tag_id = tc.1 ∧
      y.selection_count = tc.2 := by
  obtain ⟨tag, htag, hid⟩ := h
  have hsome : (tags.find? (fun t => t.id == tc.1)).isSome :=
    List.find?_isSome.mpr ⟨tag, htag, by simp [hid]⟩
  cases hf : tags.find? (fun t => t.id == tc.1) with
  | none =>
    rw [hf] at hsome
    exact absurd hsome (by simp)
  | some tag0 =>
    refine ⟨{ tag_id := tc.1, tag_text := tag0.tag_text, selection_count := tc.2 }, ?_, rfl, rfl⟩
    simp only [tagStatEntry, hf]

/-- C8: for an existing post-response question, `get_tag_statistics` returns
exactly one entry per tag selected on at least one response to the question,
each entry carrying that tag's selection count, sorted by descending count —
assuming the primary-key invariant on response ids and the foreign-key
invariant that selected tag ids name stored tags. -/
theorem compute_tag_statistics_spec (db : Db) (config_id prq_id : Nat)
    (stats : List TagStatisticsResponse)
    (hok : get_tag_statistics db config_id prq_id = .ok stats)
    (hnd : (db.question_responses.map (fun qr => qr.id)).Nodup)
    (hfk : ∀ rt ∈ db.question_response_tags, ∃ tag ∈ db.question_tags,
      tag.id = rt.tag_id) :
    (stats.map (fun e => e.tag_id)).Nodup ∧
    (∀ t : Nat, (∃ e ∈ stats, e.tag_id = t) ↔ specSelectionCount db prq_id t ≠ 0) ∧
    (∀ e ∈ stats, e.selection_count = specSelectionCount db prq_id e.tag_id) ∧
    stats.Pairwise (fun a b => b.selection_count ≤ a.selection_count) := by
  unfold get_tag_statistics at hok
  cases hfind : db.post_response_questions.find?
      (fun p => p.id == prq_id && p.train_configuration_id == config_id) with
  | none =>
    rw [hfind] at hok
    exact Except.noConfusion hok
  | some prq =>
    rw [hfind] at hok
    have hstats : stats = tagStatisticsList db prq_id := (Except.ok.inj hok).symm
    subst hstats
    have hkeysnd : ((tagSelectionCounts db prq_id).map Prod.fst).Nodup := by
      rw [tagSelectionCounts_eq_countMap]
      exact countMap_keys_nodup _
    have hperm : (tagStatisticsList db prq_id).Perm
        ((tagSelectionCounts db prq_id).filterMap (tagStatEntry db.question_tags)) := by
      unfold tagStatisticsList
      exact sortTagStatsDesc_perm _
    have hFsome : ∀ tc ∈ tagSelectionCounts db prq_id,
        ∃ y, tagStatEntry db.question_tags tc = some y ∧
          (fun e => e.tag_id) y = Prod.fst tc := by
      intro tc htc
      have hk : tc.1 ∈ (tagSelectionCounts db prq_id).map Prod.fst :=
        List.mem_map.mpr ⟨tc, htc, rfl⟩
      rw [tagSelectionCounts_eq_countMap, countMap_keys_mem] at hk
      obtain ⟨rt, hrt, hrtid⟩ := List.mem_map.mp hk
      obtain ⟨tag, htag, hid⟩ := hfk rt (mem_tagSelectionRows_sub hrt)
      obtain ⟨y, hy, hy1, hy2⟩ :=
        tagStatEntry_isSome db.question_tags tc ⟨tag, htag, by rw [hid, hrtid]⟩
      exact ⟨y, hy, hy1⟩
    have hmapS : ((tagSelectionCounts db prq_id).filterMap
        (tagStatEntry db.question_tags)).map (fun e => e.tag_id) =
        (tagSelectionCounts db prq_id).map Prod.fst :=
      filterMap_map_of_forall_some _ _ _ _ hFsome
    refine ⟨?_, ?_, ?_, ?_⟩
    · refine ((hperm.map (fun e => e.tag_id)).nodup_iff).mpr ?_
      rw [hmapS]
      exact hkeysnd
    · intro t
      have h1 : (∃ e ∈ tagStatisticsList db prq_id, e.tag_id = t) ↔
          t ∈ (tagStatisticsList db prq_id).map (fun e => e.tag_id) :=
        List.mem_map.symm
      have h2 : t ∈ (tagStatisticsList db prq_id).map (fun e => e.tag_id) ↔
          t ∈ ((tagSelectionCounts db prq_id).filterMap
            (tagStatEntry db.question_tags)).map (fun e => e.tag_id) :=
        (hperm.map _).mem_iff
      rw [hmapS] at h2
      have h3 : t ∈ (tagSelectionCounts db prq_id).map Prod.fst ↔
          t ∈ (tagSelectionRows db prq_id).map (fun rt => rt.tag_id) := by
        rw [tagSelectionCounts_eq_countMap]
        exact countMap_keys_mem _ _
      have hc : ((tagSelectionRows db prq_id).map (fun rt => rt.tag_id)).count t =
          specSelectionCount db prq_id t := by
        rw [count_map_eq_countP]
        exact selected_count_eq_spec db prq_id t hnd
      have h4 : t ∈ (tagSelectionRows db prq_id).map (fun rt => rt.tag_id) ↔
          specSelectionCount db prq_id t ≠ 0 := by
        rw [← hc]
        exact ⟨fun hm => Nat.pos_iff_ne_zero.mp (List.count_pos_iff.mpr hm),
          fun hne => List.count_pos_iff.mp (Nat.pos_of_ne_zero hne)⟩
      exact h1.trans (h2.trans (h3.trans h4))
    · intro e he
      have heS : e ∈ (tagSelectionCounts db prq_id).filterMap
          (tagStatEntry db.question_tags) := hperm.mem_iff.mp he
      obtain ⟨tc, htc, hFtc⟩ := List.mem_filterMap.mp heS
      obtain ⟨hid, hcnt⟩ := tagStatEntry_fields db.question_tags tc e hFtc
      have hlk := (mem_counter_iff hkeysnd tc.1 tc.2).mp htc
      rw [tagSelectionCounts_eq_countMap, lookupCount_countMap] at hlk
      by_cases h0 :
          ((tagSelectionRows db prq_id).map (fun rt => rt.tag_id)).count tc.1 = 0
      · rw [if_pos h0] at hlk
        exact Option.noConfusion hlk
      · rw [if_neg h0] at hlk
        have h2 : tc.2 =
            ((tagSelectionRows db prq_id).map (fun rt => rt.tag_id)).count tc.1 :=
          (Option.some.inj hlk).symm
        rw [hcnt, hid, h2, count_map_eq_countP]
        exact selected_count_eq_spec db prq_id tc.1 hnd
    · simp only [tagStatisticsList]
      exact sortTagStatsDesc_pairwise _

/-- Witness for C8 at the example store: tag 5 selected twice and tag 7 once
on question 1's responses. -/
theorem compute_tag_statistics_spec_witness :
    ((([{ tag_id := 5, tag_text := "comfort", selection_count := 2 },
        { tag_id := 7, tag_text := "privacy", selection_count := 1 }] :
        List TagStatisticsResponse)).map (fun e => e.tag_id)).Nodup ∧
    (∀ t : Nat, (∃ e ∈ ([{ tag_id := 5, tag_text := "comfort", selection_count := 2 },
        { tag_id := 7, tag_text := "privacy", selection_count := 1 }] :
        List TagStatisticsResponse), e.tag_id = t) ↔
      specSelectionCount c8Db 1 t ≠ 0) ∧
    (∀ e ∈ ([{ tag_id := 5, tag_text := "comfort", selection_count := 2 },
        { tag_id := 7, tag_text := "privacy", selection_count := 1 }] :
        List TagStatisticsResponse),
      e.selection_count = specSelectionCount c8Db 1 e.tag_id) ∧
    ([{ tag_id := 5, tag_text := "comfort", selection_count := 2 },
      { tag_id := 7, tag_text := "privacy", selection_count := 1 }] :
      List TagStatisticsResponse).Pairwise
        (fun a b => b.selection_count ≤ a.selection_count) :=
  compute_tag_statistics_spec c8Db 1 1
    [{ tag_id := 5, tag_text := "comfort", selection_count := 2 },
     { tag_id := 7, tag_text := "privacy", selection_count := 1 }]
    (by rfl) (by decide) (by decide)

end SubwaySeat
